import Mathlib

/-!
# ocl2-wrapper: the raw OpenCL examples `vec_add` and `matrix_mult`

A shallow embedding of the host-side logic of `examples/raw_ocl`:

* `cl_check_err.c`  : `cl_handle_return_value` and the `CL_CHECK_RET` wrapper;
* `vec_add.c`       : `configurate`, `detect_target_device_id`, and from `main`
  the check of context creation, the input initialisation and the validation
  loop;
* `matrix_mult.c`   : the same functions, the host reference product and the
  capped validation loop of `main`.

Conventions of the embedding.

* `exit(status)` is an `Except.error` carrying the status and the line the
  program printed right before exiting; a normal return is `Except.ok`.
* The OpenCL runtime is an external collaborator.  What it answers to the
  enumeration calls is a value of type `Runtime`: the return code of every
  call together with the data the call writes.
* An automatic variable that was never assigned is `none`.
* `cl_int` values are integers; arithmetic on them goes through `wrap32`.
* Buffers obtained from `malloc` are maps from the index to the stored value.
* `printf` calls that have no influence on control flow or on a returned value
  are left out of `detect_target_device_id` and `configurate`; the validation
  loops keep every printed line.
-/

namespace OCL

/-! ## Constants of `stdlib.h` and `CL/cl.h` -/

def EXIT_SUCCESS : Nat := 0
def EXIT_FAILURE : Nat := 1

def CL_SUCCESS : Int := 0
def CL_DEVICE_NOT_FOUND : Int := -1
def CL_DEVICE_NOT_AVAILABLE : Int := -2
def CL_COMPILER_NOT_AVAILABLE : Int := -3
def CL_OUT_OF_RESOURCES : Int := -5
def CL_OUT_OF_HOST_MEMORY : Int := -6
def CL_BUILD_PROGRAM_FAILURE : Int := -11
def CL_INVALID_VALUE : Int := -30
def CL_INVALID_DEVICE_TYPE : Int := -31
def CL_INVALID_PLATFORM : Int := -32
def CL_INVALID_DEVICE : Int := -33
def CL_INVALID_CONTEXT : Int := -34
def CL_INVALID_QUEUE_PROPERTIES : Int := -35
def CL_INVALID_MEM_OBJECT : Int := -38
def CL_INVALID_SAMPLER : Int := -41
def CL_INVALID_BINARY : Int := -42
def CL_INVALID_BUILD_OPTIONS : Int := -43
def CL_INVALID_PROGRAM : Int := -44
def CL_INVALID_PROGRAM_EXECUTABLE : Int := -45
def CL_INVALID_KERNEL_NAME : Int := -46
def CL_INVALID_KERNEL_DEFINITION : Int := -47
def CL_INVALID_KERNEL : Int := -48
def CL_INVALID_ARG_INDEX : Int := -49
def CL_INVALID_ARG_VALUE : Int := -50
def CL_INVALID_ARG_SIZE : Int := -51
def CL_INVALID_OPERATION : Int := -59
def CL_INVALID_PROPERTY : Int := -64
def CL_INVALID_DEVICE_QUEUE : Int := -70

/-- The `cl_device_type` bit field: `(1 << 0)` .. `(1 << 4)`. -/
def CL_DEVICE_TYPE_DEFAULT : Nat := 1
def CL_DEVICE_TYPE_CPU : Nat := 2
def CL_DEVICE_TYPE_GPU : Nat := 4
def CL_DEVICE_TYPE_ACCELERATOR : Nat := 8
def CL_DEVICE_TYPE_CUSTOM : Nat := 16

/-! ## Printed lines and process exit -/

/-- The lines the programs print that the embedding keeps. -/
inductive Line where
  /-- The report `"Error: '%s' at %s:%d with return code %d"` of `cl_handle_return_value`. -/
  | cl_error (problem filename : String) (line ret_value : Int)
  /-- Printed as `"Fatal error: bad number of args in configuration"`. -/
  | bad_number_of_args
  /-- Printed as `"Error: missing filename after '-k'"`. -/
  | missing_filename
  /-- Printed as `"Fatal error: unrecognized command line option '%s'"`. -/
  | unrecognized_option (arg : String)
  /-- Printed as `"Device : %s"` by the diagnostic of `vec_add`. -/
  | device (name : String)
  /-- Printed as `"%d + %d ?= %d"` by the verbose `vec_add` check. -/
  | query (a b c : Int)
  /-- Printed as `"%d != %d + %d with i == %d"`. -/
  | differs (c a b : Int) (i : Nat)
  /-- Printed as `"correct!"`. -/
  | correct
  /-- Printed as `"incorrect: C[%d:%d] == %d != %d"`. -/
  | incorrect (row col : Nat) (c c_cpu : Int)
  /-- Printed as `"C[%d:%d] element is correct!"`. -/
  | element_correct (row col : Nat)
  /-- Printed as `"Checking if calculations are correct..."`. -/
  | checking
  /-- Printed as `"Too many errors..."`. -/
  | too_many_errors
  /-- Printed as `"Added correctly!"`. -/
  | added_correctly
  /-- Printed as `"Error: %d errors in adding found!"`. -/
  | errors_found (errors : Nat)
  deriving DecidableEq, Repr

/-- A call of `exit`: the status and the line printed right before it. -/
structure Exit where
  status : Nat
  last_line : Line
  deriving DecidableEq, Repr

deriving instance DecidableEq for Except

/-! ## `cl_check_err.c` -/

/-- The `switch` of `cl_handle_return_value` over the codes that do not return:
`problem` starts as `"unknown"` and each `case` overwrites it. -/
def cl_problem (ret_value : Int) : String :=
  if ret_value = CL_BUILD_PROGRAM_FAILURE then "build program failure"
  else if ret_value = CL_COMPILER_NOT_AVAILABLE then "compiler not available"
  else if ret_value = CL_DEVICE_NOT_AVAILABLE then "device not available"
  else if ret_value = CL_DEVICE_NOT_FOUND then "device not found"
  else if ret_value = CL_INVALID_ARG_INDEX then "invalid arg index"
  else if ret_value = CL_INVALID_ARG_SIZE then "invalid arg size"
  else if ret_value = CL_INVALID_ARG_VALUE then "invalid arg value"
  else if ret_value = CL_INVALID_BINARY then "invalid binary"
  else if ret_value = CL_INVALID_BUILD_OPTIONS then "invalid build options"
  else if ret_value = CL_INVALID_CONTEXT then "invalid context"
  else if ret_value = CL_INVALID_DEVICE then "invalid device"
  else if ret_value = CL_INVALID_DEVICE_TYPE then "invalid device type"
  else if ret_value = CL_INVALID_DEVICE_QUEUE then "invalid device queue"
  else if ret_value = CL_INVALID_KERNEL then "invalid kernel"
  else if ret_value = CL_INVALID_KERNEL_NAME then "invalid kernel name"
  else if ret_value = CL_INVALID_KERNEL_DEFINITION then "invalid kernel definition"
  else if ret_value = CL_INVALID_MEM_OBJECT then "invalid mem object"
  else if ret_value = CL_INVALID_OPERATION then "invalid operation"
  else if ret_value = CL_INVALID_PLATFORM then "invalid platform"
  else if ret_value = CL_INVALID_PROGRAM then "invalid program"
  else if ret_value = CL_INVALID_PROGRAM_EXECUTABLE then "invalid program executable"
  else if ret_value = CL_INVALID_PROPERTY then "invalid property"
  else if ret_value = CL_INVALID_QUEUE_PROPERTIES then "invalid queue properties"
  else if ret_value = CL_INVALID_SAMPLER then "invalid sampler"
  else if ret_value = CL_INVALID_VALUE then "invalid value"
  else if ret_value = CL_OUT_OF_HOST_MEMORY then "out of host memory"
  else if ret_value = CL_OUT_OF_RESOURCES then "out of resources"
  else "unknown"

/-- The function `cl_handle_return_value(ret_value, filename, line)`: returns on
`CL_SUCCESS`, otherwise prints the report and calls `exit(EXIT_FAILURE)`. -/
def cl_handle_return_value (ret_value : Int) (filename : String) (line : Int) :
    Except Exit Unit :=
  if ret_value = CL_SUCCESS then .ok ()
  else .error ⟨EXIT_FAILURE, .cl_error (cl_problem ret_value) filename line ret_value⟩

/-! ## The enumeration answered by the runtime -/

/-- One device of a platform: its handle, and what
`clGetDeviceInfo(.., CL_DEVICE_TYPE, ..)` answers for it. -/
structure Device where
  id : Nat
  info_ret : Int
  type : Nat
  deriving DecidableEq, Repr

/-- One platform: the return codes of the two `clGetDeviceIDs` calls and the
devices the second call writes, in order. -/
structure Platform where
  count_ret : Int
  ids_ret : Int
  devices : List Device
  deriving DecidableEq, Repr

/-- The runtime: the return codes of the two `clGetPlatformIDs` calls and the
platforms the second call writes, in order. -/
structure Runtime where
  count_ret : Int
  ids_ret : Int
  platforms : List Platform
  deriving DecidableEq, Repr

/-- Every enumeration call answers `CL_SUCCESS`. -/
def Runtime.succeeds (rt : Runtime) : Bool :=
  decide (rt.count_ret = CL_SUCCESS) && decide (rt.ids_ret = CL_SUCCESS) &&
  rt.platforms.all (fun p =>
    decide (p.count_ret = CL_SUCCESS) && decide (p.ids_ret = CL_SUCCESS) &&
    p.devices.all (fun d => decide (d.info_ret = CL_SUCCESS)))

/-- The devices in platform-then-device order. -/
def Runtime.enumeration (rt : Runtime) : List Device :=
  rt.platforms.flatMap (fun p => p.devices)

/-- The bit mask `mask` contains the type `t`. -/
def has_type (mask t : Nat) : Prop := mask &&& t = t

instance (mask t : Nat) : Decidable (has_type mask t) := by
  unfold has_type; infer_instance

/-! ## `detect_target_device_id` (the same text in both programs) -/

/-- The `switch (one_type)` of the verbose branch: the name to print, or
`none` for `default: continue;`. -/
def type_str (one_type : Nat) : Option String :=
  if one_type = CL_DEVICE_TYPE_DEFAULT then some "default"
  else if one_type = CL_DEVICE_TYPE_CPU then some "CPU"
  else if one_type = CL_DEVICE_TYPE_GPU then some "GPU"
  else if one_type = CL_DEVICE_TYPE_ACCELERATOR then some "Accelerator"
  else if one_type = CL_DEVICE_TYPE_CUSTOM then some "custom"
  else none

/-- The loop `for (k = 0; k < 4; ++k)` over the low four bits of `type`. -/
def scan_type_bits (config_type : Nat) (be_verbose : Int) (type : Nat) (device_id : Nat)
    (target_device_id : Option Nat) : Option Nat :=
  (List.range 4).foldl
    (fun target k =>
      let one_type := type &&& (1 <<< k)
      if be_verbose ≠ 0 ∧ type_str one_type = none then target
      else if one_type = config_type then some device_id
      else target)
    target_device_id

/-- Where the five `CL_CHECK_RET` of `detect_target_device_id` expand:
`__FILE__` and the five `__LINE__` values. -/
structure CheckSites where
  file : String
  platform_count : Int
  platform_ids : Int
  device_count : Int
  device_ids : Int
  device_type : Int

/-- The loop `for (j = 0; j < num_devices; ++j)`. -/
def scan_devices (s : CheckSites) (config_type : Nat) (be_verbose : Int) :
    List Device → Option Nat → Except Exit (Option Nat)
  | [], target => .ok target
  | d :: ds, target => do
    cl_handle_return_value d.info_ret s.file s.device_type
    scan_devices s config_type be_verbose ds
      (scan_type_bits config_type be_verbose d.type d.id target)

/-- The loop `for (i = 0; i < num_platforms; ++i)`. -/
def scan_platforms (s : CheckSites) (config_type : Nat) (be_verbose : Int) :
    List Platform → Option Nat → Except Exit (Option Nat)
  | [], target => .ok target
  | p :: ps, target => do
    cl_handle_return_value p.count_ret s.file s.device_count
    cl_handle_return_value p.ids_ret s.file s.device_ids
    let target ← scan_devices s config_type be_verbose p.devices target
    scan_platforms s config_type be_verbose ps target

/-- The body of `detect_target_device_id`; `target_device_id` starts
unassigned. -/
def detect_with (s : CheckSites) (config_type : Nat) (be_verbose : Int) (rt : Runtime) :
    Except Exit (Option Nat) := do
  cl_handle_return_value rt.count_ret s.file s.platform_count
  cl_handle_return_value rt.ids_ret s.file s.platform_ids
  scan_platforms s config_type be_verbose rt.platforms none

/-! ## Command line and build configuration (both programs) -/

/-- Which of the macros `CPU` and `GPU` the compiler command line defines. -/
structure Build where
  CPU : Bool
  GPU : Bool
  deriving DecidableEq, Repr

/-- Whether `GPU` is defined after the block
`#ifndef CPU / #ifndef GPU / #define GPU / #endif / #endif`. -/
def Build.gpu_defined (b : Build) : Bool := b.GPU || !b.CPU

/-- The type chosen by `#ifdef GPU ... #else ... #endif`. -/
def default_type (b : Build) : Nat :=
  if b.gpu_defined then CL_DEVICE_TYPE_GPU else CL_DEVICE_TYPE_CPU

/-- The test `strncmp(s1, s2, n) == 0`: the first `n` characters agree. -/
def strncmp_eq (s1 s2 : String) (n : Nat) : Bool :=
  decide (s1.data.take n = s2.data.take n)

/-- The pointer `s + n` into the string `s`. -/
def str_offset (s : String) (n : Nat) : String := ⟨s.data.drop n⟩

namespace VecAdd

def STD_KERNEL_FILENAME : String := "vec_add_kernel.cl"

structure config_t where
  type : Nat
  be_verbose : Int
  kernel_filename : String
  deriving DecidableEq, Repr

/-- The loop `for (i = 1; i < argc; ++i)` of `configurate`, on the arguments
`argv[i], .., argv[argc - 1]` still to be read. -/
def configurate_args (b : Build) : List String → config_t → Except Exit config_t
  | [], config => .ok config
  | arg :: rest, config =>
    if arg = "-v" ∨ arg = "--verbose" then
      configurate_args b rest { config with be_verbose := 1 }
    else if arg = "-k" then
      match rest with
      | filename :: rest => configurate_args b rest { config with kernel_filename := filename }
      | [] => .error ⟨EXIT_FAILURE, .missing_filename⟩
    else if strncmp_eq arg "--device=" 9 then
      let device := str_offset arg 9
      if device = "GPU" then
        configurate_args b rest { config with type := CL_DEVICE_TYPE_GPU }
      else if device = "CPU" then
        configurate_args b rest { config with type := CL_DEVICE_TYPE_CPU }
      else
        configurate_args b rest { config with type := default_type b }
    else .error ⟨EXIT_FAILURE, .unrecognized_option arg⟩

/-- The function `configurate(argc, argv)` with `argc` the length of `argv`. -/
def configurate (b : Build) (argv : List String) : Except Exit config_t :=
  let argc : Int := argv.length
  if argc < 1 then .error ⟨EXIT_FAILURE, .bad_number_of_args⟩
  else
    let config : config_t :=
      { type := default_type b, be_verbose := 0, kernel_filename := STD_KERNEL_FILENAME }
    if argc = 1 then .ok config
    else configurate_args b (argv.drop 1) config

/-- Lines 339, 347, 353, 359 and 373 of `vec_add.c`. -/
def check_sites : CheckSites :=
  { file := "vec_add.c", platform_count := 339, platform_ids := 347,
    device_count := 353, device_ids := 359, device_type := 373 }

def detect_target_device_id (config : config_t) (rt : Runtime) : Except Exit (Option Nat) :=
  detect_with check_sites config.type config.be_verbose rt

end VecAdd

namespace MatrixMult

def STD_KERNEL_FILENAME : String := "matrix_mult_kernel.cl"

structure config_t where
  type : Nat
  be_verbose : Int
  with_timing : Int
  kernel_filename : String
  deriving DecidableEq, Repr

/-- The loop `for (i = 1; i < argc; ++i)` of `configurate`, on the arguments
`argv[i], .., argv[argc - 1]` still to be read. -/
def configurate_args (b : Build) : List String → config_t → Except Exit config_t
  | [], config => .ok config
  | arg :: rest, config =>
    if arg = "-v" ∨ arg = "--verbose" then
      configurate_args b rest { config with be_verbose := 777 }
    else if arg = "-wt" ∨ arg = "--with-timing" then
      configurate_args b rest { config with with_timing := 777 }
    else if arg = "-k" then
      match rest with
      | filename :: rest => configurate_args b rest { config with kernel_filename := filename }
      | [] => .error ⟨EXIT_FAILURE, .missing_filename⟩
    else if strncmp_eq arg "--device=" 9 then
      let device := str_offset arg 9
      if device = "GPU" then
        configurate_args b rest { config with type := CL_DEVICE_TYPE_GPU }
      else if device = "CPU" then
        configurate_args b rest { config with type := CL_DEVICE_TYPE_CPU }
      else
        configurate_args b rest { config with type := default_type b }
    else .error ⟨EXIT_FAILURE, .unrecognized_option arg⟩

/-- The function `configurate(argc, argv)` with `argc` the length of `argv`. -/
def configurate (b : Build) (argv : List String) : Except Exit config_t :=
  let argc : Int := argv.length
  if argc < 1 then .error ⟨EXIT_FAILURE, .bad_number_of_args⟩
  else
    let config : config_t :=
      { type := default_type b, be_verbose := 0, with_timing := 0,
        kernel_filename := STD_KERNEL_FILENAME }
    if argc = 1 then .ok config
    else configurate_args b (argv.drop 1) config

/-- Lines 368, 376, 382, 388 and 402 of `matrix_mult.c`. -/
def check_sites : CheckSites :=
  { file := "matrix_mult.c", platform_count := 368, platform_ids := 376,
    device_count := 382, device_ids := 388, device_type := 402 }

def detect_target_device_id (config : config_t) (rt : Runtime) : Except Exit (Option Nat) :=
  detect_with check_sites config.type config.be_verbose rt

end MatrixMult

/-! ## Specification-side notions for device selection -/

/-- The selection the device loop performs, as a pure fold. -/
def select_last (t : Nat) (devs : List Device) (tgt : Option Nat) : Option Nat :=
  devs.foldl (fun tg d => if has_type d.type t then some d.id else tg) tgt

/-- Two platforms: a CPU and a GPU on the first, a CPU+GPU device and a CPU on
the second; every call succeeds. -/
def sample_runtime : Runtime :=
  { count_ret := 0, ids_ret := 0,
    platforms :=
      [ { count_ret := 0, ids_ret := 0,
          devices := [⟨10, 0, 2⟩, ⟨11, 0, 4⟩] },
        { count_ret := 0, ids_ret := 0,
          devices := [⟨12, 0, 6⟩, ⟨13, 0, 2⟩] } ] }

/-- One platform holding a single CPU device; every call succeeds. -/
def cpu_only_runtime : Runtime :=
  { count_ret := 0, ids_ret := 0,
    platforms := [ { count_ret := 0, ids_ret := 0, devices := [⟨10, 0, 2⟩] } ] }

/-! ## Specification-side notions for the command line -/

/-- The arguments in option position: reading left to right, the argument
that follows a `-k` in option position is its operand and is passed over. -/
def option_args : List String → List String
  | [] => []
  | [a] => [a]
  | a :: operand :: rest =>
    if a = "-k" then a :: option_args rest else a :: option_args (operand :: rest)

/-- A `-k` in option position is the final argument. -/
def dangling_k : List String → Bool
  | [] => false
  | [a] => decide (a = "-k")
  | a :: operand :: rest =>
    if a = "-k" then dangling_k rest else dangling_k (operand :: rest)

/-- The string starts with `--device=`. -/
def is_device_option (a : String) : Prop := "--device=".data <+: a.data

instance (a : String) : Decidable (is_device_option a) := by
  unfold is_device_option; infer_instance

/-- The type a `--device=X` option asks for, given `X`. -/
def device_choice (b : Build) (x : String) : Nat :=
  if x = "GPU" then CL_DEVICE_TYPE_GPU
  else if x = "CPU" then CL_DEVICE_TYPE_CPU
  else default_type b

/-- The last `--device=` option in option position, if there is one. -/
def last_device_option (args : List String) : Option String :=
  ((option_args args).filter (fun a => decide (is_device_option a))).getLast?

/-- The type decided by the last `--device=` option in option position, the
compile-time default without one. -/
def decided_type (b : Build) (args : List String) : Nat :=
  match last_device_option args with
  | none => default_type b
  | some a => device_choice b ⟨a.data.drop 9⟩

/-- Some argument in option position is not a known option, or a `-k` in
option position is the final argument. -/
def bad_args (known : String → Prop) (args : List String) : Prop :=
  (∃ a ∈ option_args args, ¬ known a) ∨ dangling_k args = true

instance (known : String → Prop) [DecidablePred known] (args : List String) :
    Decidable (bad_args known args) := by
  unfold bad_args; infer_instance

/-- The options `vec_add` knows. -/
def VecAdd.known_option (a : String) : Prop :=
  a = "-v" ∨ a = "--verbose" ∨ a = "-k" ∨ is_device_option a

/-- The options `matrix_mult` knows. -/
def MatrixMult.known_option (a : String) : Prop :=
  a = "-v" ∨ a = "--verbose" ∨ a = "-k" ∨ is_device_option a ∨
  a = "-wt" ∨ a = "--with-timing"

instance (a : String) : Decidable (VecAdd.known_option a) := by
  unfold VecAdd.known_option; infer_instance

instance (a : String) : Decidable (MatrixMult.known_option a) := by
  unfold MatrixMult.known_option; infer_instance

/-- The argument lists on which `configurate` of `vec_add` is specified to
exit: `argc < 1`, an unknown argument in option position, or a final `-k`. -/
def VecAdd.rejected (argv : List String) : Prop :=
  argv.length < 1 ∨ bad_args VecAdd.known_option (argv.drop 1)

/-- The argument lists on which `configurate` of `matrix_mult` is specified to
exit. -/
def MatrixMult.rejected (argv : List String) : Prop :=
  argv.length < 1 ∨ bad_args MatrixMult.known_option (argv.drop 1)

instance (argv : List String) : Decidable (VecAdd.rejected argv) := by
  unfold VecAdd.rejected; infer_instance

instance (argv : List String) : Decidable (MatrixMult.rejected argv) := by
  unfold MatrixMult.rejected; infer_instance

/-- The type in force after reading `args`, starting from the type `cur`: the
choice of the last `--device=` option in option position, `cur` without one. -/
def type_after (b : Build) (cur : Nat) (args : List String) : Nat :=
  match last_device_option args with
  | none => cur
  | some a => device_choice b ⟨a.data.drop 9⟩

/-! ## Buffers and `cl_int` arithmetic -/

/-- The 32-bit two's complement value of an integer result. -/
def wrap32 (x : Int) : Int := (x + 2147483648) % 4294967296 - 2147483648

/-- The `cl_int` sum `a + b`. -/
def add32 (a b : Int) : Int := wrap32 (a + b)

/-- The `cl_int` product `a * b`. -/
def mul32 (a b : Int) : Int := wrap32 (a * b)

/-- A `cl_int` array: the value stored at each index. -/
abbrev Buffer := Nat → Int

/-- The assignment `buf[i] = v`. -/
def Buffer.store (buf : Buffer) (i : Nat) (v : Int) : Buffer :=
  fun j => if j = i then v else buf j

/-- The state of a validation loop: the counter `errors` and the lines printed
so far. -/
structure check_t where
  errors : Nat
  printed : List Line
  deriving DecidableEq, Repr

/-- How a validation ends: the exit status, the value of `errors` and of the
loop variable `i` at the call of `exit`, and everything printed. -/
structure Verdict where
  status : Nat
  errors : Nat
  index : Nat
  printed : List Line
  deriving DecidableEq, Repr

namespace VecAdd

def VEC_SIZE : Nat := 1048576

/-- Lines 152-156 of `vec_add.c`: `A[i] = i; B[i] = mem_lenth - i;`. -/
def init_inputs (mem_lenth : Nat) (A B : Buffer) : Buffer × Buffer :=
  (List.range mem_lenth).foldl
    (fun AB i => (AB.1.store i (wrap32 i), AB.2.store i (wrap32 ((mem_lenth : Int) - i))))
    (A, B)

/-- The body of the loop at lines 220-235 of `vec_add.c` for the index `i`. -/
def check_step (be_verbose : Int) (A B C : Buffer) (s : check_t) (i : Nat) : check_t :=
  let s : check_t :=
    if be_verbose ≠ 0 then { s with printed := s.printed ++ [.query (A i) (B i) (C i)] }
    else s
  if C i ≠ add32 (A i) (B i) then
    { errors := s.errors + 1, printed := s.printed ++ [.differs (C i) (A i) (B i) i] }
  else if be_verbose ≠ 0 then
    { s with printed := s.printed ++ [.correct] }
  else s

/-- The loop `for (i = 0; i < mem_lenth; ++i)`, on the indices still to visit;
returns the final state and the final value of `i`. -/
def check_loop (be_verbose : Int) (A B C : Buffer) : List Nat → check_t → Nat → check_t × Nat
  | [], s, i => (s, i)
  | i :: rest, s, _ => check_loop be_verbose A B C rest (check_step be_verbose A B C s i) (i + 1)

/-- Lines 218-246 of `vec_add.c`: the check of `C` against `A[i] + B[i]` and
the final verdict. -/
def validate (be_verbose : Int) (mem_lenth : Nat) (A B C : Buffer) : Verdict :=
  let r := check_loop be_verbose A B C (List.range mem_lenth) ⟨0, []⟩ 0
  if r.1.errors = 0 then
    ⟨EXIT_SUCCESS, r.1.errors, r.2, r.1.printed ++ [.added_correctly]⟩
  else
    ⟨EXIT_FAILURE, r.1.errors, r.2, r.1.printed ++ [.errors_found r.1.errors]⟩

end VecAdd

namespace MatrixMult

def N : Nat := 2024
def M : Nat := 2024
def K : Nat := 2024

/-- Lines 132-134 of `matrix_mult.c`: `A[i * m + j] = i + j`. -/
def init_A (n m : Nat) (A : Buffer) : Buffer :=
  (List.range n).foldl
    (fun A i => (List.range m).foldl
      (fun A j => A.store (i * m + j) (add32 i j)) A)
    A

/-- Lines 136-143 of `matrix_mult.c`: both `B[i * k + j]` and
`B_transposed[j * m + i]` receive `(i * j) % (3 * (m + k))`. -/
def init_B (m k : Nat) (B B_transposed : Buffer) : Buffer × Buffer :=
  (List.range m).foldl
    (fun BB i => (List.range k).foldl
      (fun BB j =>
        (BB.1.store (i * k + j) (Int.tmod (mul32 i j) (mul32 3 (add32 m k))),
         BB.2.store (j * m + i) (Int.tmod (mul32 i j) (mul32 3 (add32 m k)))))
      BB)
    (B, B_transposed)

/-- Lines 147-157 of `matrix_mult.c`: the host reference product, reading the
transposed copy of `B`. -/
def reference (n m k : Nat) (A B_transposed C_CPU : Buffer) : Buffer :=
  (List.range n).foldl
    (fun C_CPU i => (List.range k).foldl
      (fun C_CPU j => (List.range m).foldl
        (fun C_CPU l =>
          C_CPU.store (i * k + j)
            (add32 (C_CPU (i * k + j)) (mul32 (A (i * m + l)) (B_transposed (j * m + l)))))
        (C_CPU.store (i * k + j) 0))
      C_CPU)
    C_CPU

/-- The comparison at lines 244-252 of `matrix_mult.c` for the index `i`. -/
def check_step (be_verbose : Int) (k : Nat) (C C_CPU : Buffer) (s : check_t) (i : Nat) :
    check_t :=
  if C i ≠ C_CPU i then
    { errors := s.errors + 1,
      printed := s.printed ++ [.incorrect (i / k) (i % k) (C i) (C_CPU i)] }
  else if be_verbose ≠ 0 then
    { s with printed := s.printed ++ [.element_correct (i / k) (i % k)] }
  else s

/-- The loop at lines 242-259 of `matrix_mult.c`, on the indices still to
visit: `.error` is the `exit(EXIT_FAILURE)` inside the loop, with the state and
the index at which it is called. -/
def check_loop (be_verbose : Int) (k : Nat) (C C_CPU : Buffer) :
    List Nat → check_t → Except (check_t × Nat) check_t
  | [], s => .ok s
  | i :: rest, s =>
    let s := check_step be_verbose k C C_CPU s i
    if s.errors > 20 then
      .error ({ s with printed := s.printed ++ [.too_many_errors] }, i)
    else check_loop be_verbose k C C_CPU rest s

/-- Lines 235-270 of `matrix_mult.c`: the check of `C` against `C_CPU` and the
final verdict. -/
def validate (be_verbose : Int) (n k : Nat) (C C_CPU : Buffer) : Verdict :=
  let start : check_t := ⟨0, if be_verbose ≠ 0 then [.checking] else []⟩
  match check_loop be_verbose k C C_CPU (List.range (n * k)) start with
  | .error (s, i) => ⟨EXIT_FAILURE, s.errors, i, s.printed⟩
  | .ok s =>
    if s.errors = 0 then
      ⟨EXIT_SUCCESS, s.errors, n * k, s.printed ++ [.added_correctly]⟩
    else
      ⟨EXIT_FAILURE, s.errors, n * k, s.printed ++ [.errors_found s.errors]⟩

end MatrixMult

/-! ## Specification-side notions for the numeric part -/

/-- The number of indices `i < len` at which the two buffers differ. -/
def mismatches (len : Nat) (C C_ref : Buffer) : Nat :=
  ((List.range len).filter (fun i => decide (C i ≠ C_ref i))).length

/-- The naive triple loop for `A[n x m] * B[m x k]`, reading `B` itself. -/
def naive_product (n m k : Nat) (A B C : Buffer) : Buffer :=
  (List.range n).foldl
    (fun C i => (List.range k).foldl
      (fun C j => (List.range m).foldl
        (fun C l =>
          C.store (i * k + j) (add32 (C (i * k + j)) (mul32 (A (i * m + l)) (B (l * k + j)))))
        (C.store (i * k + j) 0))
      C)
    C

/-- The entry `(i, j)` of the product over the integers. -/
def exact_entry (m k : Nat) (A B : Buffer) (i j : Nat) : Int :=
  ((List.range m).map (fun l => A (i * m + l) * B (l * k + j))).sum

/-- A small output buffer: `8` everywhere except a `9` at index 2. -/
def sample_output : Buffer := fun i => if i = 2 then 9 else 8

/-! ## Specification-side notions for the error handler -/

/-- The error codes the `switch` of `cl_handle_return_value` names, each with
the identifier of its macro in `CL/cl.h`. -/
def listed_errors : List (String × Int) :=
  [ ("CL_BUILD_PROGRAM_FAILURE", CL_BUILD_PROGRAM_FAILURE),
    ("CL_COMPILER_NOT_AVAILABLE", CL_COMPILER_NOT_AVAILABLE),
    ("CL_DEVICE_NOT_AVAILABLE", CL_DEVICE_NOT_AVAILABLE),
    ("CL_DEVICE_NOT_FOUND", CL_DEVICE_NOT_FOUND),
    ("CL_INVALID_ARG_INDEX", CL_INVALID_ARG_INDEX),
    ("CL_INVALID_ARG_SIZE", CL_INVALID_ARG_SIZE),
    ("CL_INVALID_ARG_VALUE", CL_INVALID_ARG_VALUE),
    ("CL_INVALID_BINARY", CL_INVALID_BINARY),
    ("CL_INVALID_BUILD_OPTIONS", CL_INVALID_BUILD_OPTIONS),
    ("CL_INVALID_CONTEXT", CL_INVALID_CONTEXT),
    ("CL_INVALID_DEVICE", CL_INVALID_DEVICE),
    ("CL_INVALID_DEVICE_TYPE", CL_INVALID_DEVICE_TYPE),
    ("CL_INVALID_DEVICE_QUEUE", CL_INVALID_DEVICE_QUEUE),
    ("CL_INVALID_KERNEL", CL_INVALID_KERNEL),
    ("CL_INVALID_KERNEL_NAME", CL_INVALID_KERNEL_NAME),
    ("CL_INVALID_KERNEL_DEFINITION", CL_INVALID_KERNEL_DEFINITION),
    ("CL_INVALID_MEM_OBJECT", CL_INVALID_MEM_OBJECT),
    ("CL_INVALID_OPERATION", CL_INVALID_OPERATION),
    ("CL_INVALID_PLATFORM", CL_INVALID_PLATFORM),
    ("CL_INVALID_PROGRAM", CL_INVALID_PROGRAM),
    ("CL_INVALID_PROGRAM_EXECUTABLE", CL_INVALID_PROGRAM_EXECUTABLE),
    ("CL_INVALID_PROPERTY", CL_INVALID_PROPERTY),
    ("CL_INVALID_QUEUE_PROPERTIES", CL_INVALID_QUEUE_PROPERTIES),
    ("CL_INVALID_SAMPLER", CL_INVALID_SAMPLER),
    ("CL_INVALID_VALUE", CL_INVALID_VALUE),
    ("CL_OUT_OF_HOST_MEMORY", CL_OUT_OF_HOST_MEMORY),
    ("CL_OUT_OF_RESOURCES", CL_OUT_OF_RESOURCES) ]

/-- The name of a code read as a category: the identifier without its `CL_`,
in lower case, with a blank for every underscore. -/
def category_of_name (name : String) : String :=
  ⟨(name.data.drop 3).map (fun c => if c = '_' then ' ' else c.toLower)⟩

/-! ## Context creation in `main` of `vec_add.c` -/

namespace VecAdd

/-- What the runtime answers to the three queries of the diagnostic at lines
88-100 of `vec_add.c`: the return codes of `clGetDeviceInfo(CL_DEVICE_PLATFORM)`,
`clGetPlatformInfo(CL_PLATFORM_NAME)` and `clGetDeviceInfo(CL_DEVICE_NAME)`, and
the device name the last one writes. -/
structure DiagnosticReplies where
  platform_ret : Int
  platform_name_ret : Int
  device_name_ret : Int
  device_name : String
  deriving DecidableEq, Repr

/-- The body of `if (ret == CL_DEVICE_NOT_AVAILABLE)`, lines 83-104 of
`vec_add.c`: three checked queries, then `exit(EXIT_FAILURE)`. -/
def device_not_available_branch (d : DiagnosticReplies) : Except Exit Unit := do
  cl_handle_return_value d.platform_ret check_sites.file 90
  cl_handle_return_value d.platform_name_ret check_sites.file 94
  cl_handle_return_value d.device_name_ret check_sites.file 100
  .error ⟨EXIT_FAILURE, .device d.device_name⟩

/-- Lines 78-105 of `vec_add.c`, for the code `ret` that `clCreateContext`
writes: `CL_CHECK_RET`, the test for `CL_DEVICE_NOT_AVAILABLE`, `CL_CHECK_RET`. -/
def create_context (ret : Int) (d : DiagnosticReplies) : Except Exit Unit := do
  cl_handle_return_value ret check_sites.file 80
  if ret = CL_DEVICE_NOT_AVAILABLE then
    device_not_available_branch d
  cl_handle_return_value ret check_sites.file 105

end VecAdd

/-! ## Specification-side notions for the kernel file name and the flags -/

/-- The operands of the `-k` options in option position, in order. -/
def k_operands : List String → List String
  | [] => []
  | [_] => []
  | a :: operand :: rest =>
    if a = "-k" then operand :: k_operands rest else k_operands (operand :: rest)

/-- The file name in force after reading `args`, starting from `cur`: the
operand of the last `-k` in option position, `cur` without one. -/
def filename_after (cur : String) (args : List String) : String :=
  (k_operands args).getLast?.getD cur

/-- Some argument in option position is `-v` or `--verbose`. -/
def verbose_requested (args : List String) : Prop :=
  ∃ a ∈ option_args args, a = "-v" ∨ a = "--verbose"

/-- Some argument in option position is `-wt` or `--with-timing`. -/
def timing_requested (args : List String) : Prop :=
  ∃ a ∈ option_args args, a = "-wt" ∨ a = "--with-timing"

instance (args : List String) : Decidable (verbose_requested args) := by
  unfold verbose_requested; infer_instance

instance (args : List String) : Decidable (timing_requested args) := by
  unfold timing_requested; infer_instance

/-! # Theorems -/

/-! ## Device selection -/

theorem land_two_pow (m k : Nat) : m &&& 2 ^ k = if m.testBit k then 2 ^ k else 0 := by
  apply Nat.eq_of_testBit_eq
  intro j
  rw [Nat.testBit_and, Nat.testBit_two_pow]
  by_cases h : k = j
  · subst h
    cases hb : m.testBit k <;> simp [Nat.testBit_two_pow]
  · cases hb : m.testBit k <;> simp [Nat.testBit_two_pow, h]

theorem land_bit0 (m : Nat) : m &&& 1 = if m.testBit 0 then 1 else 0 := by
  simpa using land_two_pow m 0

theorem land_bit1 (m : Nat) : m &&& 2 = if m.testBit 1 then 2 else 0 := by
  simpa using land_two_pow m 1

theorem land_bit2 (m : Nat) : m &&& 4 = if m.testBit 2 then 4 else 0 := by
  simpa using land_two_pow m 2

theorem land_bit3 (m : Nat) : m &&& 8 = if m.testBit 3 then 8 else 0 := by
  simpa using land_two_pow m 3

/-- The bit loop assigns the device exactly when its mask contains the
requested type, whatever the verbose flag. -/
theorem scan_type_bits_eq (t : Nat) (ht : t = CL_DEVICE_TYPE_CPU ∨ t = CL_DEVICE_TYPE_GPU)
    (v : Int) (m id : Nat) (tgt : Option Nat) :
    scan_type_bits t v m id tgt = if has_type m t then some id else tgt := by
  have e : List.range 4 = [0, 1, 2, 3] := by decide
  unfold scan_type_bits has_type
  rw [e]
  simp only [List.foldl_cons, List.foldl_nil]
  have s0 : (1 : Nat) <<< 0 = 1 := by decide
  have s1 : (1 : Nat) <<< 1 = 2 := by decide
  have s2 : (1 : Nat) <<< 2 = 4 := by decide
  have s3 : (1 : Nat) <<< 3 = 8 := by decide
  rw [s0, s1, s2, s3, land_bit0, land_bit1, land_bit2, land_bit3]
  rcases ht with rfl | rfl
  · simp only [show CL_DEVICE_TYPE_CPU = 2 from rfl, land_bit1]
    by_cases hv : v = 0 <;>
    cases m.testBit 0 <;> cases m.testBit 1 <;> cases m.testBit 2 <;> cases m.testBit 3 <;>
      simp [hv, type_str, CL_DEVICE_TYPE_DEFAULT, CL_DEVICE_TYPE_CPU, CL_DEVICE_TYPE_GPU,
        CL_DEVICE_TYPE_ACCELERATOR, CL_DEVICE_TYPE_CUSTOM]
  · simp only [show CL_DEVICE_TYPE_GPU = 4 from rfl, land_bit2]
    by_cases hv : v = 0 <;>
    cases m.testBit 0 <;> cases m.testBit 1 <;> cases m.testBit 2 <;> cases m.testBit 3 <;>
      simp [hv, type_str, CL_DEVICE_TYPE_DEFAULT, CL_DEVICE_TYPE_CPU, CL_DEVICE_TYPE_GPU,
        CL_DEVICE_TYPE_ACCELERATOR, CL_DEVICE_TYPE_CUSTOM]

theorem cl_handle_return_value_success (file : String) (line : Int) :
    cl_handle_return_value CL_SUCCESS file line = .ok () := by
  simp [cl_handle_return_value]

theorem scan_devices_ok (s : CheckSites) (t : Nat)
    (ht : t = CL_DEVICE_TYPE_CPU ∨ t = CL_DEVICE_TYPE_GPU) (v : Int) (ds : List Device) :
    (∀ d ∈ ds, d.info_ret = CL_SUCCESS) →
    ∀ tgt, scan_devices s t v ds tgt = .ok (select_last t ds tgt) := by
  induction ds with
  | nil => intro _ tgt; rfl
  | cons d ds ih =>
    intro h tgt
    have hd : d.info_ret = CL_SUCCESS := h d (List.mem_cons_self _ _)
    have hds : ∀ x ∈ ds, x.info_ret = CL_SUCCESS := fun x hx => h x (List.mem_cons_of_mem _ hx)
    rw [scan_devices, hd, cl_handle_return_value_success]
    show scan_devices s t v ds _ = _
    rw [ih hds, scan_type_bits_eq t ht]
    rfl

theorem scan_platforms_ok (s : CheckSites) (t : Nat)
    (ht : t = CL_DEVICE_TYPE_CPU ∨ t = CL_DEVICE_TYPE_GPU) (v : Int) (ps : List Platform) :
    (∀ p ∈ ps, p.count_ret = CL_SUCCESS ∧ p.ids_ret = CL_SUCCESS ∧
      ∀ d ∈ p.devices, d.info_ret = CL_SUCCESS) →
    ∀ tgt, scan_platforms s t v ps tgt =
      .ok (select_last t (ps.flatMap (fun p => p.devices)) tgt) := by
  induction ps with
  | nil => intro _ tgt; rfl
  | cons p ps ih =>
    intro h tgt
    obtain ⟨h1, h2, h3⟩ := h p (List.mem_cons_self _ _)
    have hps := fun x hx => h x (List.mem_cons_of_mem _ hx)
    rw [scan_platforms, h1, h2, cl_handle_return_value_success,
      cl_handle_return_value_success]
    show (scan_devices s t v p.devices tgt >>= fun target => scan_platforms s t v ps target) = _
    rw [scan_devices_ok s t ht v p.devices h3]
    show scan_platforms s t v ps _ = _
    rw [ih hps]
    simp [select_last, List.foldl_append]

theorem succeeds_iff (rt : Runtime) :
    rt.succeeds = true ↔ rt.count_ret = CL_SUCCESS ∧ rt.ids_ret = CL_SUCCESS ∧
      ∀ p ∈ rt.platforms, p.count_ret = CL_SUCCESS ∧ p.ids_ret = CL_SUCCESS ∧
        ∀ d ∈ p.devices, d.info_ret = CL_SUCCESS := by
  simp [Runtime.succeeds, and_assoc]

theorem detect_with_ok (s : CheckSites) (t : Nat)
    (ht : t = CL_DEVICE_TYPE_CPU ∨ t = CL_DEVICE_TYPE_GPU) (v : Int) (rt : Runtime)
    (hok : rt.succeeds = true) :
    detect_with s t v rt = .ok (select_last t rt.enumeration none) := by
  obtain ⟨h1, h2, h3⟩ := (succeeds_iff rt).1 hok
  rw [detect_with, h1, h2, cl_handle_return_value_success]
  show scan_platforms s t v rt.platforms none = _
  rw [scan_platforms_ok s t ht v rt.platforms h3]
  rfl

theorem select_last_none (t : Nat) (l : List Device) (tgt : Option Nat)
    (h : ∀ d ∈ l, ¬ has_type d.type t) : select_last t l tgt = tgt := by
  induction l generalizing tgt with
  | nil => rfl
  | cons d ds ih =>
    have hd := h d (List.mem_cons_self _ _)
    simp only [select_last, List.foldl_cons, if_neg hd]
    exact ih tgt (fun x hx => h x (List.mem_cons_of_mem _ hx))

theorem select_last_append (t : Nat) (l₁ l₂ : List Device) (tgt : Option Nat) :
    select_last t (l₁ ++ l₂) tgt = select_last t l₂ (select_last t l₁ tgt) := by
  simp [select_last, List.foldl_append]

theorem select_last_spec (t : Nat) (l : List Device) (tgt : Option Nat)
    (h : ∃ d ∈ l, has_type d.type t) :
    ∃ pre d post, l = pre ++ d :: post ∧ has_type d.type t ∧
      (∀ x ∈ post, ¬ has_type x.type t) ∧ select_last t l tgt = some d.id := by
  induction l using List.reverseRecOn with
  | nil => simp at h
  | append_singleton l a ih =>
    by_cases ha : has_type a.type t
    · refine ⟨l, a, [], rfl, ha, by simp, ?_⟩
      rw [select_last_append]
      simp [select_last, ha]
    · have h' : ∃ d ∈ l, has_type d.type t := by
        obtain ⟨d, hd, hdt⟩ := h
        rcases List.mem_append.1 hd with hd | hd
        · exact ⟨d, hd, hdt⟩
        · simp at hd; subst hd; exact absurd hdt ha
      obtain ⟨pre, d, post, hl, hdt, hpost, hsel⟩ := ih h'
      refine ⟨pre, d, post ++ [a], by simp [hl], hdt, ?_, ?_⟩
      · intro x hx
        rcases List.mem_append.1 hx with hx | hx
        · exact hpost x hx
        · simp at hx; subst hx; exact ha
      · rw [select_last_append, hsel]
        simp [select_last, ha]

/-- When no enumerated device has the requested type the function returns
normally with `target_device_id` never assigned. -/
theorem detect_with_no_match (s : CheckSites) (t : Nat)
    (ht : t = CL_DEVICE_TYPE_CPU ∨ t = CL_DEVICE_TYPE_GPU) (v : Int) (rt : Runtime)
    (hok : rt.succeeds = true) (h : ∀ d ∈ rt.enumeration, ¬ has_type d.type t) :
    detect_with s t v rt = .ok none := by
  rw [detect_with_ok s t ht v rt hok, select_last_none t _ none h]

theorem scan_devices_verbose (s : CheckSites) (t : Nat)
    (ht : t = CL_DEVICE_TYPE_CPU ∨ t = CL_DEVICE_TYPE_GPU) (v₁ v₂ : Int) (ds : List Device) :
    ∀ tgt, scan_devices s t v₁ ds tgt = scan_devices s t v₂ ds tgt := by
  induction ds with
  | nil => intro tgt; rfl
  | cons d ds ih =>
    intro tgt
    rw [scan_devices, scan_devices, scan_type_bits_eq t ht, scan_type_bits_eq t ht]
    cases cl_handle_return_value d.info_ret s.file s.device_type with
    | error e => rfl
    | ok u => exact ih _

theorem scan_platforms_verbose (s : CheckSites) (t : Nat)
    (ht : t = CL_DEVICE_TYPE_CPU ∨ t = CL_DEVICE_TYPE_GPU) (v₁ v₂ : Int) (ps : List Platform) :
    ∀ tgt, scan_platforms s t v₁ ps tgt = scan_platforms s t v₂ ps tgt := by
  induction ps with
  | nil => intro tgt; rfl
  | cons p ps ih =>
    intro tgt
    rw [scan_platforms, scan_platforms, scan_devices_verbose s t ht v₁ v₂]
    cases cl_handle_return_value p.count_ret s.file s.device_count with
    | error e => rfl
    | ok u =>
      cases cl_handle_return_value p.ids_ret s.file s.device_ids with
      | error e => rfl
      | ok u =>
        cases scan_devices s t v₂ p.devices tgt with
        | error e => rfl
        | ok tg => exact ih tg

theorem detect_with_verbose (s : CheckSites) (t : Nat)
    (ht : t = CL_DEVICE_TYPE_CPU ∨ t = CL_DEVICE_TYPE_GPU) (v₁ v₂ : Int) (rt : Runtime) :
    detect_with s t v₁ rt = detect_with s t v₂ rt := by
  rw [detect_with, detect_with, scan_platforms_verbose s t ht v₁ v₂]

/-- C1: when every enumeration call succeeds and some device's type mask
contains the requested type `t` (CPU or GPU), `detect_target_device_id` of both
programs returns the device at the last matching position of the
platform-then-device enumeration: no device after it matches, and its own mask
contains `t`. -/
theorem C1_detect_returns_last_matching_device (rt : Runtime) (t : Nat)
    (ht : t = CL_DEVICE_TYPE_CPU ∨ t = CL_DEVICE_TYPE_GPU)
    (hok : rt.succeeds = true)
    (hex : ∃ d ∈ rt.enumeration, has_type d.type t) :
    ∃ pre d post, rt.enumeration = pre ++ d :: post ∧ has_type d.type t ∧
      (∀ x ∈ post, ¬ has_type x.type t) ∧
      (∀ c : VecAdd.config_t, c.type = t →
        VecAdd.detect_target_device_id c rt = .ok (some d.id)) ∧
      (∀ c : MatrixMult.config_t, c.type = t →
        MatrixMult.detect_target_device_id c rt = .ok (some d.id)) := by
  obtain ⟨pre, d, post, hl, hdt, hpost, hsel⟩ := select_last_spec t rt.enumeration none hex
  refine ⟨pre, d, post, hl, hdt, hpost, ?_, ?_⟩
  · intro c hc
    rw [VecAdd.detect_target_device_id, hc, detect_with_ok _ t ht _ rt hok, hsel]
  · intro c hc
    rw [MatrixMult.detect_target_device_id, hc, detect_with_ok _ t ht _ rt hok, hsel]

/-- C1 at `sample_runtime` with the GPU type: the hypotheses hold, and the
device found is the third of the enumeration (handle 12), not the first GPU
(handle 11). -/
theorem C1_detect_returns_last_matching_device_witness :
    (CL_DEVICE_TYPE_GPU = CL_DEVICE_TYPE_CPU ∨ CL_DEVICE_TYPE_GPU = CL_DEVICE_TYPE_GPU) ∧
    sample_runtime.succeeds = true ∧
    (∃ d ∈ sample_runtime.enumeration, has_type d.type CL_DEVICE_TYPE_GPU) ∧
    (∃ pre d post, sample_runtime.enumeration = pre ++ d :: post ∧
      has_type d.type CL_DEVICE_TYPE_GPU ∧
      (∀ x ∈ post, ¬ has_type x.type CL_DEVICE_TYPE_GPU) ∧
      (∀ c : VecAdd.config_t, c.type = CL_DEVICE_TYPE_GPU →
        VecAdd.detect_target_device_id c sample_runtime = .ok (some d.id)) ∧
      (∀ c : MatrixMult.config_t, c.type = CL_DEVICE_TYPE_GPU →
        MatrixMult.detect_target_device_id c sample_runtime = .ok (some d.id))) ∧
    VecAdd.detect_target_device_id ⟨CL_DEVICE_TYPE_GPU, 0, "k.cl"⟩ sample_runtime
      = .ok (some 12) :=
  ⟨Or.inr rfl, by decide, by decide,
   C1_detect_returns_last_matching_device sample_runtime CL_DEVICE_TYPE_GPU (Or.inr rfl)
     (by decide) (by decide),
   by decide⟩

/-- C2 (the code at the failing input): with the default build and no
arguments the requested type is GPU; on a host whose only device is a CPU both
programs return from `detect_target_device_id` normally with the device
variable never assigned, and no error is raised. -/
theorem C2_no_match_returns_unassigned :
    (∀ d ∈ cpu_only_runtime.enumeration, ¬ has_type d.type CL_DEVICE_TYPE_GPU) ∧
    cpu_only_runtime.succeeds = true ∧
    (VecAdd.configurate ⟨false, false⟩ ["vec_add"]).bind
      (fun c => VecAdd.detect_target_device_id c cpu_only_runtime) = .ok none ∧
    (MatrixMult.configurate ⟨false, false⟩ ["matrix_mult"]).bind
      (fun c => MatrixMult.detect_target_device_id c cpu_only_runtime) = .ok none ∧
    VecAdd.detect_target_device_id ⟨CL_DEVICE_TYPE_GPU, 0, "k.cl"⟩ ⟨0, 0, []⟩ = .ok none := by
  decide

/-- C7: for a requested type `t` (CPU or GPU) the result of
`detect_target_device_id` is a function of the runtime's answers and `t` alone:
two configurations with the same type give the same result whatever their
verbose, timing and file name fields; and a bit of the mask that equals `t` is
never one the verbose `switch` skips with `continue`. -/
theorem C7_detect_depends_only_on_type (rt : Runtime) (t : Nat)
    (ht : t = CL_DEVICE_TYPE_CPU ∨ t = CL_DEVICE_TYPE_GPU) :
    (∀ c₁ c₂ : VecAdd.config_t, c₁.type = t → c₂.type = t →
      VecAdd.detect_target_device_id c₁ rt = VecAdd.detect_target_device_id c₂ rt) ∧
    (∀ c₁ c₂ : MatrixMult.config_t, c₁.type = t → c₂.type = t →
      MatrixMult.detect_target_device_id c₁ rt = MatrixMult.detect_target_device_id c₂ rt) ∧
    (∀ mask k : Nat, mask &&& (1 <<< k) = t → type_str (mask &&& (1 <<< k)) ≠ none) := by
  refine ⟨?_, ?_, ?_⟩
  · intro c₁ c₂ h₁ h₂
    rw [VecAdd.detect_target_device_id, VecAdd.detect_target_device_id, h₁, h₂]
    exact detect_with_verbose _ t ht _ _ rt
  · intro c₁ c₂ h₁ h₂
    rw [MatrixMult.detect_target_device_id, MatrixMult.detect_target_device_id, h₁, h₂]
    exact detect_with_verbose _ t ht _ _ rt
  · intro mask k h
    rw [h]
    rcases ht with rfl | rfl <;> decide

/-- C7 at `sample_runtime` with the GPU type: a quiet and a verbose
configuration with different file names select the same device. -/
theorem C7_detect_depends_only_on_type_witness :
    (CL_DEVICE_TYPE_GPU = CL_DEVICE_TYPE_CPU ∨ CL_DEVICE_TYPE_GPU = CL_DEVICE_TYPE_GPU) ∧
    VecAdd.detect_target_device_id ⟨CL_DEVICE_TYPE_GPU, 0, "a.cl"⟩ sample_runtime =
      VecAdd.detect_target_device_id ⟨CL_DEVICE_TYPE_GPU, 1, "b.cl"⟩ sample_runtime ∧
    MatrixMult.detect_target_device_id ⟨CL_DEVICE_TYPE_GPU, 0, 0, "a.cl"⟩ sample_runtime =
      MatrixMult.detect_target_device_id ⟨CL_DEVICE_TYPE_GPU, 777, 777, "b.cl"⟩ sample_runtime :=
  ⟨Or.inr rfl,
   (C7_detect_depends_only_on_type sample_runtime CL_DEVICE_TYPE_GPU (Or.inr rfl)).1 _ _ rfl rfl,
   (C7_detect_depends_only_on_type sample_runtime CL_DEVICE_TYPE_GPU (Or.inr rfl)).2.1 _ _
     rfl rfl⟩

/-! ## Command line -/

theorem strncmp_device_iff (a : String) :
    strncmp_eq a "--device=" 9 = true ↔ is_device_option a := by
  unfold strncmp_eq is_device_option
  have hp : ("--device=".data).take 9 = "--device=".data := by decide
  have hl : ("--device=".data).length = 9 := by decide
  rw [decide_eq_true_iff, hp]
  constructor
  · intro h
    rw [← h]
    exact List.take_prefix 9 a.data
  · rintro ⟨r, hr⟩
    rw [← hr, List.take_append_of_le_length (by rw [hl]), hp]

theorem option_args_cons_ne (a : String) (rest : List String) (h : a ≠ "-k") :
    option_args (a :: rest) = a :: option_args rest := by
  cases rest with
  | nil => rfl
  | cons x r => simp [option_args, h]

theorem option_args_k_cons (f : String) (r : List String) :
    option_args ("-k" :: f :: r) = "-k" :: option_args r := by
  simp [option_args]

theorem dangling_k_cons_ne (a : String) (rest : List String) (h : a ≠ "-k") :
    dangling_k (a :: rest) = dangling_k rest := by
  cases rest with
  | nil => simp [dangling_k, h]
  | cons x r => simp [dangling_k, h]

theorem dangling_k_k_cons (f : String) (r : List String) :
    dangling_k ("-k" :: f :: r) = dangling_k r := by
  simp [dangling_k]

theorem not_device_k : ¬ is_device_option "-k" := by decide

theorem device_ne_k (a : String) (h : is_device_option a) : a ≠ "-k" := by
  rintro rfl; exact not_device_k h

theorem type_after_nil (b : Build) (cur : Nat) : type_after b cur [] = cur := rfl

theorem type_after_cons_device (b : Build) (cur : Nat) (a : String) (rest : List String)
    (h : is_device_option a) :
    type_after b cur (a :: rest) = type_after b (device_choice b ⟨a.data.drop 9⟩) rest := by
  unfold type_after last_device_option
  rw [option_args_cons_ne a rest (device_ne_k a h)]
  simp only [List.filter_cons, decide_eq_true h, if_true, List.getLast?_cons]
  cases (List.filter (fun a => decide (is_device_option a)) (option_args rest)).getLast? <;> rfl

theorem type_after_cons_other (b : Build) (cur : Nat) (a : String) (rest : List String)
    (h : ¬ is_device_option a) (hk : a ≠ "-k") :
    type_after b cur (a :: rest) = type_after b cur rest := by
  unfold type_after last_device_option
  rw [option_args_cons_ne a rest hk]
  simp [List.filter_cons, h]

theorem type_after_k_cons (b : Build) (cur : Nat) (f : String) (r : List String) :
    type_after b cur ("-k" :: f :: r) = type_after b cur r := by
  unfold type_after last_device_option
  rw [option_args_k_cons]
  simp [List.filter_cons, not_device_k]

theorem decided_type_eq (b : Build) (args : List String) :
    decided_type b args = type_after b (default_type b) args := rfl

theorem bad_args_nil (known : String → Prop) : ¬ bad_args known [] := by
  simp [bad_args, option_args, dangling_k]

theorem bad_args_cons_ne (known : String → Prop) (a : String) (rest : List String)
    (h : a ≠ "-k") :
    bad_args known (a :: rest) ↔ ¬ known a ∨ bad_args known rest := by
  simp [bad_args, option_args_cons_ne a rest h, dangling_k_cons_ne a rest h, or_assoc]

theorem bad_args_k_nil (known : String → Prop) : bad_args known ["-k"] := by
  simp [bad_args, dangling_k]

theorem bad_args_k_cons (known : String → Prop) (hk : known "-k") (f : String)
    (r : List String) :
    bad_args known ("-k" :: f :: r) ↔ bad_args known r := by
  simp [bad_args, option_args_k_cons, dangling_k_k_cons, hk]

namespace VecAdd

theorem va_args_verbose (b : Build) (a : String) (rest : List String) (c : config_t)
    (h : a = "-v" ∨ a = "--verbose") :
    configurate_args b (a :: rest) c = configurate_args b rest { c with be_verbose := 1 } := by
  rw [configurate_args.eq_def]
  simp only [if_pos h]

theorem va_args_k_cons (b : Build) (f : String) (r : List String) (c : config_t) :
    configurate_args b ("-k" :: f :: r) c =
      configurate_args b r { c with kernel_filename := f } := by
  rw [configurate_args]
  simp

theorem va_args_k_nil (b : Build) (c : config_t) :
    configurate_args b ["-k"] c = .error ⟨EXIT_FAILURE, .missing_filename⟩ := by
  rw [configurate_args]
  simp

theorem va_args_device (b : Build) (a : String) (rest : List String) (c : config_t)
    (h : is_device_option a) :
    configurate_args b (a :: rest) c =
      configurate_args b rest { c with type := device_choice b ⟨a.data.drop 9⟩ } := by
  have h1 : ¬ (a = "-v" ∨ a = "--verbose") := by
    rintro (rfl | rfl) <;> revert h <;> decide
  have h2 : a ≠ "-k" := device_ne_k a h
  rw [configurate_args.eq_def]
  simp only [if_neg h1, if_neg h2, if_pos ((strncmp_device_iff a).2 h), str_offset, device_choice]
  split_ifs <;> rfl

theorem va_args_unknown (b : Build) (a : String) (rest : List String) (c : config_t)
    (h : ¬ known_option a) :
    configurate_args b (a :: rest) c = .error ⟨EXIT_FAILURE, .unrecognized_option a⟩ := by
  have h1 : ¬ (a = "-v" ∨ a = "--verbose") := fun h' =>
    h (h'.elim Or.inl (fun x => Or.inr (Or.inl x)))
  have h2 : a ≠ "-k" := fun h' => h (Or.inr (Or.inr (Or.inl h')))
  have h3 : ¬ strncmp_eq a "--device=" 9 = true := fun h' =>
    h (Or.inr (Or.inr (Or.inr ((strncmp_device_iff a).1 h'))))
  rw [configurate_args.eq_def]
  simp only [if_neg h1, if_neg h2, if_neg h3]

theorem va_args_result (b : Build) :
    ∀ (n : Nat) (args : List String), args.length = n → ∀ c : config_t,
      (bad_args known_option args →
        ∃ line, configurate_args b args c = .error ⟨EXIT_FAILURE, line⟩) ∧
      (¬ bad_args known_option args →
        ∃ c', configurate_args b args c = .ok c' ∧ c'.type = type_after b c.type args) := by
  intro n
  induction n using Nat.strong_induction_on with
  | _ n ih =>
    intro args hn c
    cases args with
    | nil =>
      exact ⟨fun h => absurd h (bad_args_nil _), fun _ => ⟨c, rfl, rfl⟩⟩
    | cons a rest =>
      have hlt : rest.length < n := by rw [← hn]; simp
      by_cases hk : a = "-k"
      · subst hk
        cases rest with
        | nil =>
          exact ⟨fun _ => ⟨_, va_args_k_nil b c⟩, fun h => absurd (bad_args_k_nil _) h⟩
        | cons f r =>
          have hlt' : r.length < n := by rw [← hn]; simp; omega
          have hkn : known_option "-k" := by decide
          rw [bad_args_k_cons _ hkn, va_args_k_cons, type_after_k_cons]
          exact ih _ hlt' r rfl _
      · by_cases hv : a = "-v" ∨ a = "--verbose"
        · have hkn : known_option a := hv.elim Or.inl (fun x => Or.inr (Or.inl x))
          have hnd : ¬ is_device_option a := by
            rcases hv with rfl | rfl <;> decide
          rw [bad_args_cons_ne _ a rest hk, va_args_verbose b a rest c hv,
            type_after_cons_other b c.type a rest hnd hk]
          simp only [hkn, not_true_eq_false, false_or]
          exact ih _ hlt rest rfl _
        · by_cases hd : is_device_option a
          · have hkn : known_option a := Or.inr (Or.inr (Or.inr hd))
            rw [bad_args_cons_ne _ a rest hk, va_args_device b a rest c hd,
              type_after_cons_device b c.type a rest hd]
            simp only [hkn, not_true_eq_false, false_or]
            exact ih _ hlt rest rfl _
          · have hkn : ¬ known_option a := by
              rintro (h | h | h | h)
              · exact hv (Or.inl h)
              · exact hv (Or.inr h)
              · exact hk h
              · exact hd h
            rw [bad_args_cons_ne _ a rest hk, va_args_unknown b a rest c hkn]
            exact ⟨fun _ => ⟨_, rfl⟩, fun h => absurd (Or.inl hkn) h⟩

end VecAdd

namespace MatrixMult

theorem mm_args_verbose (b : Build) (a : String) (rest : List String) (c : config_t)
    (h : a = "-v" ∨ a = "--verbose") :
    configurate_args b (a :: rest) c =
      configurate_args b rest { c with be_verbose := 777 } := by
  rw [configurate_args.eq_def]
  simp only [if_pos h]

theorem mm_args_timing (b : Build) (a : String) (rest : List String) (c : config_t)
    (h : a = "-wt" ∨ a = "--with-timing") :
    configurate_args b (a :: rest) c =
      configurate_args b rest { c with with_timing := 777 } := by
  have h1 : ¬ (a = "-v" ∨ a = "--verbose") := by
    rcases h with rfl | rfl <;> decide
  rw [configurate_args.eq_def]
  simp only [if_neg h1, if_pos h]

theorem mm_args_k_cons (b : Build) (f : String) (r : List String) (c : config_t) :
    configurate_args b ("-k" :: f :: r) c =
      configurate_args b r { c with kernel_filename := f } := by
  rw [configurate_args]
  simp

theorem mm_args_k_nil (b : Build) (c : config_t) :
    configurate_args b ["-k"] c = .error ⟨EXIT_FAILURE, .missing_filename⟩ := by
  rw [configurate_args]
  simp

theorem mm_args_device (b : Build) (a : String) (rest : List String) (c : config_t)
    (h : is_device_option a) :
    configurate_args b (a :: rest) c =
      configurate_args b rest { c with type := device_choice b ⟨a.data.drop 9⟩ } := by
  have h1 : ¬ (a = "-v" ∨ a = "--verbose") := by
    rintro (rfl | rfl) <;> revert h <;> decide
  have h1' : ¬ (a = "-wt" ∨ a = "--with-timing") := by
    rintro (rfl | rfl) <;> revert h <;> decide
  have h2 : a ≠ "-k" := device_ne_k a h
  rw [configurate_args.eq_def]
  simp only [if_neg h1, if_neg h1', if_neg h2, if_pos ((strncmp_device_iff a).2 h),
    str_offset, device_choice]
  split_ifs <;> rfl

theorem mm_args_unknown (b : Build) (a : String) (rest : List String) (c : config_t)
    (h : ¬ known_option a) :
    configurate_args b (a :: rest) c = .error ⟨EXIT_FAILURE, .unrecognized_option a⟩ := by
  have h1 : ¬ (a = "-v" ∨ a = "--verbose") := fun h' =>
    h (h'.elim Or.inl (fun x => Or.inr (Or.inl x)))
  have h1' : ¬ (a = "-wt" ∨ a = "--with-timing") := fun h' =>
    h (Or.inr (Or.inr (Or.inr (Or.inr h'))))
  have h2 : a ≠ "-k" := fun h' => h (Or.inr (Or.inr (Or.inl h')))
  have h3 : ¬ strncmp_eq a "--device=" 9 = true := fun h' =>
    h (Or.inr (Or.inr (Or.inr (Or.inl ((strncmp_device_iff a).1 h')))))
  rw [configurate_args.eq_def]
  simp only [if_neg h1, if_neg h1', if_neg h2, if_neg h3]

theorem mm_args_result (b : Build) :
    ∀ (n : Nat) (args : List String), args.length = n → ∀ c : config_t,
      (bad_args known_option args →
        ∃ line, configurate_args b args c = .error ⟨EXIT_FAILURE, line⟩) ∧
      (¬ bad_args known_option args →
        ∃ c', configurate_args b args c = .ok c' ∧ c'.type = type_after b c.type args) := by
  intro n
  induction n using Nat.strong_induction_on with
  | _ n ih =>
    intro args hn c
    cases args with
    | nil =>
      exact ⟨fun h => absurd h (bad_args_nil _), fun _ => ⟨c, rfl, rfl⟩⟩
    | cons a rest =>
      have hlt : rest.length < n := by rw [← hn]; simp
      by_cases hk : a = "-k"
      · subst hk
        cases rest with
        | nil =>
          exact ⟨fun _ => ⟨_, mm_args_k_nil b c⟩, fun h => absurd (bad_args_k_nil _) h⟩
        | cons f r =>
          have hlt' : r.length < n := by rw [← hn]; simp; omega
          have hkn : known_option "-k" := by decide
          rw [bad_args_k_cons _ hkn, mm_args_k_cons, type_after_k_cons]
          exact ih _ hlt' r rfl _
      · by_cases hv : a = "-v" ∨ a = "--verbose"
        · have hkn : known_option a := hv.elim Or.inl (fun x => Or.inr (Or.inl x))
          have hnd : ¬ is_device_option a := by
            rcases hv with rfl | rfl <;> decide
          rw [bad_args_cons_ne _ a rest hk, mm_args_verbose b a rest c hv,
            type_after_cons_other b c.type a rest hnd hk]
          simp only [hkn, not_true_eq_false, false_or]
          exact ih _ hlt rest rfl _
        · by_cases hw : a = "-wt" ∨ a = "--with-timing"
          · have hkn : known_option a := Or.inr (Or.inr (Or.inr (Or.inr hw)))
            have hnd : ¬ is_device_option a := by
              rcases hw with rfl | rfl <;> decide
            rw [bad_args_cons_ne _ a rest hk, mm_args_timing b a rest c hw,
              type_after_cons_other b c.type a rest hnd hk]
            simp only [hkn, not_true_eq_false, false_or]
            exact ih _ hlt rest rfl _
          · by_cases hd : is_device_option a
            · have hkn : known_option a := Or.inr (Or.inr (Or.inr (Or.inl hd)))
              rw [bad_args_cons_ne _ a rest hk, mm_args_device b a rest c hd,
                type_after_cons_device b c.type a rest hd]
              simp only [hkn, not_true_eq_false, false_or]
              exact ih _ hlt rest rfl _
            · have hkn : ¬ known_option a := by
                rintro (h | h | h | h | h)
                · exact hv (Or.inl h)
                · exact hv (Or.inr h)
                · exact hk h
                · exact hd h
                · exact hw h
              rw [bad_args_cons_ne _ a rest hk, mm_args_unknown b a rest c hkn]
              exact ⟨fun _ => ⟨_, rfl⟩, fun h => absurd (Or.inl hkn) h⟩

end MatrixMult

theorem device_option_append (x : String) : is_device_option ("--device=" ++ x) := by
  unfold is_device_option
  rw [String.data_append]
  exact List.prefix_append _ _

theorem device_option_offset (x : String) :
    (⟨("--device=" ++ x).data.drop 9⟩ : String) = x := by
  rw [String.data_append]
  have hl : ("--device=".data).length = 9 := by decide
  rw [List.drop_append_of_le_length (by rw [hl]), ← hl, List.drop_length]
  rfl

theorem VecAdd.va_configurate_eq (b : Build) (argv : List String) (h : ¬ argv.length < 1) :
    VecAdd.configurate b argv = VecAdd.configurate_args b (argv.drop 1)
      { type := default_type b, be_verbose := 0,
        kernel_filename := VecAdd.STD_KERNEL_FILENAME } := by
  unfold VecAdd.configurate
  have h0 : ¬ ((argv.length : Int) < 1) := by omega
  simp only [if_neg h0]
  split_ifs with h1
  · have : argv.drop 1 = [] := by
      apply List.drop_eq_nil_of_le; omega
    rw [this]; rfl
  · rfl

theorem MatrixMult.mm_configurate_eq (b : Build) (argv : List String) (h : ¬ argv.length < 1) :
    MatrixMult.configurate b argv = MatrixMult.configurate_args b (argv.drop 1)
      { type := default_type b, be_verbose := 0, with_timing := 0,
        kernel_filename := MatrixMult.STD_KERNEL_FILENAME } := by
  unfold MatrixMult.configurate
  have h0 : ¬ ((argv.length : Int) < 1) := by omega
  simp only [if_neg h0]
  split_ifs with h1
  · have : argv.drop 1 = [] := by
      apply List.drop_eq_nil_of_le; omega
    rw [this]; rfl
  · rfl

theorem VecAdd.va_configurate_result (b : Build) (argv : List String) :
    (VecAdd.rejected argv →
      ∃ line, VecAdd.configurate b argv = .error ⟨EXIT_FAILURE, line⟩) ∧
    (¬ VecAdd.rejected argv →
      ∃ c, VecAdd.configurate b argv = .ok c ∧ c.type = decided_type b (argv.drop 1)) := by
  by_cases h : argv.length < 1
  · refine ⟨fun _ => ⟨.bad_number_of_args, ?_⟩, fun h' => absurd (Or.inl h) h'⟩
    unfold VecAdd.configurate
    have h0 : (argv.length : Int) < 1 := by omega
    simp only [if_pos h0]
  · rw [VecAdd.va_configurate_eq b argv h, decided_type_eq]
    have hr : VecAdd.rejected argv ↔ bad_args VecAdd.known_option (argv.drop 1) := by
      unfold VecAdd.rejected
      exact ⟨fun h' => h'.resolve_left h, Or.inr⟩
    rw [hr]
    exact VecAdd.va_args_result b _ (argv.drop 1) rfl _

theorem MatrixMult.mm_configurate_result (b : Build) (argv : List String) :
    (MatrixMult.rejected argv →
      ∃ line, MatrixMult.configurate b argv = .error ⟨EXIT_FAILURE, line⟩) ∧
    (¬ MatrixMult.rejected argv →
      ∃ c, MatrixMult.configurate b argv = .ok c ∧
        c.type = decided_type b (argv.drop 1)) := by
  by_cases h : argv.length < 1
  · refine ⟨fun _ => ⟨.bad_number_of_args, ?_⟩, fun h' => absurd (Or.inl h) h'⟩
    unfold MatrixMult.configurate
    have h0 : (argv.length : Int) < 1 := by omega
    simp only [if_pos h0]
  · rw [MatrixMult.mm_configurate_eq b argv h, decided_type_eq]
    have hr : MatrixMult.rejected argv ↔ bad_args MatrixMult.known_option (argv.drop 1) := by
      unfold MatrixMult.rejected
      exact ⟨fun h' => h'.resolve_left h, Or.inr⟩
    rw [hr]
    exact MatrixMult.mm_args_result b _ (argv.drop 1) rfl _

/-- C8: whenever `configurate` of either program returns a configuration, its
`type` is the one asked for by the last `--device=` option in option position
(an argument consumed as the operand of `-k` is not in option position), and
the compile-time default when there is no such option; `--device=GPU` followed
by `--device=CPU` gives CPU. -/
theorem C8_last_device_option_decides_type (b : Build) (argv : List String) :
    (∀ c, VecAdd.configurate b argv = .ok c → c.type = decided_type b (argv.drop 1)) ∧
    (∀ c, MatrixMult.configurate b argv = .ok c → c.type = decided_type b (argv.drop 1)) ∧
    (last_device_option (argv.drop 1) = none → decided_type b (argv.drop 1) = default_type b) ∧
    (∀ prog, VecAdd.configurate b [prog, "--device=GPU", "--device=CPU"] =
      .ok ⟨CL_DEVICE_TYPE_CPU, 0, VecAdd.STD_KERNEL_FILENAME⟩) ∧
    (∀ prog, MatrixMult.configurate b [prog, "--device=GPU", "--device=CPU"] =
      .ok ⟨CL_DEVICE_TYPE_CPU, 0, 0, MatrixMult.STD_KERNEL_FILENAME⟩) := by
  refine ⟨?_, ?_, ?_, ?_, ?_⟩
  · intro c hc
    by_cases hr : VecAdd.rejected argv
    · obtain ⟨line, hl⟩ := (VecAdd.va_configurate_result b argv).1 hr
      rw [hl] at hc; cases hc
    · obtain ⟨c', hc', ht⟩ := (VecAdd.va_configurate_result b argv).2 hr
      rw [hc'] at hc; cases hc; exact ht
  · intro c hc
    by_cases hr : MatrixMult.rejected argv
    · obtain ⟨line, hl⟩ := (MatrixMult.mm_configurate_result b argv).1 hr
      rw [hl] at hc; cases hc
    · obtain ⟨c', hc', ht⟩ := (MatrixMult.mm_configurate_result b argv).2 hr
      rw [hc'] at hc; cases hc; exact ht
  · intro h
    unfold decided_type
    rw [h]
  · intro prog; rfl
  · intro prog; rfl

/-- C8 on a command line where a `--device=CPU` is the operand of `-k` and the
last `--device=` in option position asks for GPU under a CPU build. -/
theorem C8_last_device_option_decides_type_witness :
    VecAdd.configurate ⟨true, false⟩ ["vec_add", "--device=CPU", "--device=GPU", "-k",
        "--device=CPU"] = .ok ⟨CL_DEVICE_TYPE_GPU, 0, "--device=CPU"⟩ ∧
    CL_DEVICE_TYPE_GPU = decided_type ⟨true, false⟩
      (["vec_add", "--device=CPU", "--device=GPU", "-k", "--device=CPU"].drop 1) :=
  ⟨by decide,
   (C8_last_device_option_decides_type ⟨true, false⟩
      ["vec_add", "--device=CPU", "--device=GPU", "-k", "--device=CPU"]).1
      ⟨CL_DEVICE_TYPE_GPU, 0, "--device=CPU"⟩ (by decide)⟩

/-- C9: for every `X` other than `GPU` and `CPU`, reading the option
`--device=X` in any configuration state sets `type` to the compile-time default
(whatever `type` was before) and goes on with the remaining arguments; the
default is GPU unless the build defines `CPU`; alone on the command line the
option is accepted. -/
theorem C9_unrecognized_device_falls_back (b : Build) (x : String)
    (hG : x ≠ "GPU") (hC : x ≠ "CPU") :
    (∀ (rest : List String) (c : VecAdd.config_t),
      VecAdd.configurate_args b (("--device=" ++ x) :: rest) c =
        VecAdd.configurate_args b rest { c with type := default_type b }) ∧
    (∀ (rest : List String) (c : MatrixMult.config_t),
      MatrixMult.configurate_args b (("--device=" ++ x) :: rest) c =
        MatrixMult.configurate_args b rest { c with type := default_type b }) ∧
    (b.CPU = false → default_type b = CL_DEVICE_TYPE_GPU) ∧
    (∀ prog, VecAdd.configurate b [prog, "--device=" ++ x] =
      .ok ⟨default_type b, 0, VecAdd.STD_KERNEL_FILENAME⟩) ∧
    (∀ prog, MatrixMult.configurate b [prog, "--device=" ++ x] =
      .ok ⟨default_type b, 0, 0, MatrixMult.STD_KERNEL_FILENAME⟩) := by
  have hch : device_choice b ⟨("--device=" ++ x).data.drop 9⟩ = default_type b := by
    rw [device_option_offset]
    simp [device_choice, hG, hC]
  have hv : ∀ (rest : List String) (c : VecAdd.config_t),
      VecAdd.configurate_args b (("--device=" ++ x) :: rest) c =
        VecAdd.configurate_args b rest { c with type := default_type b } := by
    intro rest c
    rw [VecAdd.va_args_device b _ rest c (device_option_append x), hch]
  have hm : ∀ (rest : List String) (c : MatrixMult.config_t),
      MatrixMult.configurate_args b (("--device=" ++ x) :: rest) c =
        MatrixMult.configurate_args b rest { c with type := default_type b } := by
    intro rest c
    rw [MatrixMult.mm_args_device b _ rest c (device_option_append x), hch]
  refine ⟨hv, hm, ?_, ?_, ?_⟩
  · intro h
    simp [default_type, Build.gpu_defined, h, CL_DEVICE_TYPE_GPU]
  · intro prog
    rw [VecAdd.va_configurate_eq b _ (by simp)]
    show VecAdd.configurate_args b (("--device=" ++ x) :: []) _ = _
    rw [hv]; rfl
  · intro prog
    rw [MatrixMult.mm_configurate_eq b _ (by simp)]
    show MatrixMult.configurate_args b (("--device=" ++ x) :: []) _ = _
    rw [hm]; rfl

/-- C9 at `X = "gpu"` (lower case) under a CPU build, after `--device=GPU`:
the type goes back to the default CPU and the following `-v` is still read. -/
theorem C9_unrecognized_device_falls_back_witness :
    "gpu" ≠ "GPU" ∧ "gpu" ≠ "CPU" ∧
    VecAdd.configurate_args ⟨true, false⟩ [("--device=" ++ "gpu"), "-v"]
        ⟨CL_DEVICE_TYPE_GPU, 0, "k.cl"⟩ =
      VecAdd.configurate_args ⟨true, false⟩ ["-v"] ⟨CL_DEVICE_TYPE_CPU, 0, "k.cl"⟩ ∧
    VecAdd.configurate ⟨true, false⟩ ["vec_add", "--device=GPU", "--device=gpu", "-v"] =
      .ok ⟨CL_DEVICE_TYPE_CPU, 1, VecAdd.STD_KERNEL_FILENAME⟩ :=
  ⟨by decide, by decide,
   (C9_unrecognized_device_falls_back ⟨true, false⟩ "gpu" (by decide) (by decide)).1
     ["-v"] ⟨CL_DEVICE_TYPE_GPU, 0, "k.cl"⟩,
   by decide⟩

/-- C10: `configurate` exits, and then with `EXIT_FAILURE`, exactly on the
rejected argument lists (`argc < 1`, an argument in option position that is
not a known option, or a `-k` in option position that is the final argument);
on every other list it returns a configuration.  The known options of
`matrix_mult` include `-wt` and `--with-timing`, those of `vec_add` do not. -/
theorem C10_configurate_rejects_iff (b : Build) (argv : List String) :
    ((∃ line, VecAdd.configurate b argv = .error ⟨EXIT_FAILURE, line⟩) ↔
      VecAdd.rejected argv) ∧
    ((∃ c, VecAdd.configurate b argv = .ok c) ↔ ¬ VecAdd.rejected argv) ∧
    ((∃ line, MatrixMult.configurate b argv = .error ⟨EXIT_FAILURE, line⟩) ↔
      MatrixMult.rejected argv) ∧
    ((∃ c, MatrixMult.configurate b argv = .ok c) ↔ ¬ MatrixMult.rejected argv) ∧
    (∀ prog,
      VecAdd.configurate b [prog, "-wt"] =
        .error ⟨EXIT_FAILURE, .unrecognized_option "-wt"⟩ ∧
      VecAdd.configurate b [prog, "--with-timing"] =
        .error ⟨EXIT_FAILURE, .unrecognized_option "--with-timing"⟩ ∧
      MatrixMult.configurate b [prog, "-wt"] =
        .ok ⟨default_type b, 0, 777, MatrixMult.STD_KERNEL_FILENAME⟩ ∧
      MatrixMult.configurate b [prog, "--with-timing"] =
        .ok ⟨default_type b, 0, 777, MatrixMult.STD_KERNEL_FILENAME⟩) := by
  have hv := VecAdd.va_configurate_result b argv
  have hm := MatrixMult.mm_configurate_result b argv
  refine ⟨⟨?_, hv.1⟩, ⟨?_, ?_⟩, ⟨?_, hm.1⟩, ⟨?_, ?_⟩, ?_⟩
  · rintro ⟨line, hl⟩
    by_contra hr
    obtain ⟨c, hc, _⟩ := hv.2 hr
    rw [hc] at hl; cases hl
  · rintro ⟨c, hc⟩ hr
    obtain ⟨line, hl⟩ := hv.1 hr
    rw [hl] at hc; cases hc
  · intro hr
    obtain ⟨c, hc, _⟩ := hv.2 hr
    exact ⟨c, hc⟩
  · rintro ⟨line, hl⟩
    by_contra hr
    obtain ⟨c, hc, _⟩ := hm.2 hr
    rw [hc] at hl; cases hl
  · rintro ⟨c, hc⟩ hr
    obtain ⟨line, hl⟩ := hm.1 hr
    rw [hl] at hc; cases hc
  · intro hr
    obtain ⟨c, hc, _⟩ := hm.2 hr
    exact ⟨c, hc⟩
  · intro prog
    exact ⟨rfl, rfl, rfl, rfl⟩

/-! ## Validation -/

theorem mismatches_eq_zero_iff (len : Nat) (C R : Buffer) :
    mismatches len C R = 0 ↔ ∀ i < len, C i = R i := by
  unfold mismatches
  rw [List.length_eq_zero, List.filter_eq_nil_iff]
  constructor
  · intro h i hi
    have := h i (List.mem_range.2 hi)
    simpa using this
  · intro h i hi
    simpa using h i (List.mem_range.1 hi)

theorem wrap32_of_range (x : Int) (h₁ : -2147483648 ≤ x) (h₂ : x < 2147483648) :
    wrap32 x = x := by
  unfold wrap32
  omega

namespace VecAdd

theorem va_check_step_errors (v : Int) (A B C : Buffer) (s : check_t) (i : Nat) :
    (check_step v A B C s i).errors =
      s.errors + if C i ≠ add32 (A i) (B i) then 1 else 0 := by
  unfold check_step
  by_cases hv : v ≠ 0 <;> by_cases hc : C i ≠ add32 (A i) (B i) <;> simp [hv, hc]

theorem va_check_loop_errors (v : Int) (A B C : Buffer) (l : List Nat) :
    ∀ (s : check_t) (i : Nat), (check_loop v A B C l s i).1.errors =
      s.errors + (l.filter (fun i => decide (C i ≠ add32 (A i) (B i)))).length := by
  induction l with
  | nil => intro s i; rfl
  | cons j l ih =>
    intro s i
    rw [check_loop, ih, va_check_step_errors, List.filter_cons]
    by_cases hc : C j ≠ add32 (A j) (B j)
    · simp [hc]; omega
    · simp [hc]

theorem va_check_loop_index (v : Int) (A B C : Buffer) (n : Nat) :
    ∀ (a : Nat) (s : check_t), (check_loop v A B C (List.range' a n) s a).2 = a + n := by
  induction n with
  | zero => intro a s; rfl
  | succ n ih =>
    intro a s
    rw [List.range'_succ, check_loop, ih]
    omega

theorem va_validate_errors (v : Int) (len : Nat) (A B C : Buffer) :
    (validate v len A B C).errors = mismatches len C (fun i => add32 (A i) (B i)) := by
  unfold validate mismatches
  simp only
  split_ifs <;> simp only [va_check_loop_errors] <;> simp

theorem va_validate_index (v : Int) (len : Nat) (A B C : Buffer) :
    (validate v len A B C).index = len := by
  unfold validate
  simp only
  split_ifs <;> simp only [List.range_eq_range', va_check_loop_index] <;> simp

theorem va_validate_status (v : Int) (len : Nat) (A B C : Buffer) :
    (validate v len A B C).status =
      if mismatches len C (fun i => add32 (A i) (B i)) = 0 then EXIT_SUCCESS
      else EXIT_FAILURE := by
  have he : (check_loop v A B C (List.range len) ⟨0, []⟩ 0).1.errors =
      mismatches len C (fun i => add32 (A i) (B i)) := by
    rw [va_check_loop_errors]; simp [mismatches]
  unfold validate
  simp only [he]
  split_ifs <;> rfl

end VecAdd

theorem filter_ne_length_cons (C R : Buffer) (j : Nat) (l : List Nat) :
    ((j :: l).filter (fun i => decide (C i ≠ R i))).length =
      (if C j ≠ R j then 1 else 0) + (l.filter (fun i => decide (C i ≠ R i))).length := by
  by_cases hc : C j = R j
  · simp [List.filter_cons, hc]
  · simp [List.filter_cons, hc]; omega

namespace MatrixMult

theorem mm_check_step_errors (v : Int) (k : Nat) (C R : Buffer) (s : check_t) (i : Nat) :
    (check_step v k C R s i).errors = s.errors + if C i ≠ R i then 1 else 0 := by
  unfold check_step
  by_cases hv : v ≠ 0 <;> by_cases hc : C i ≠ R i <;> simp [hv, hc]

theorem mm_check_loop_ok (v : Int) (k : Nat) (C R : Buffer) (l : List Nat) :
    ∀ s : check_t,
      s.errors + (l.filter (fun i => decide (C i ≠ R i))).length ≤ 20 →
      ∃ s', check_loop v k C R l s = .ok s' ∧
        s'.errors = s.errors + (l.filter (fun i => decide (C i ≠ R i))).length := by
  induction l with
  | nil => intro s _; exact ⟨s, rfl, rfl⟩
  | cons j l ih =>
    intro s h
    rw [filter_ne_length_cons] at h ⊢
    have hs := mm_check_step_errors v k C R s j
    have h20 : ¬ ((check_step v k C R s j).errors > 20) := by omega
    rw [check_loop]
    simp only [h20, if_false]
    obtain ⟨s', hs', he⟩ := ih (check_step v k C R s j) (by omega)
    exact ⟨s', hs', by omega⟩

theorem mm_check_loop_exit (v : Int) (k : Nat) (C R : Buffer) (l : List Nat) :
    ∀ s : check_t, s.errors ≤ 20 →
      20 < s.errors + (l.filter (fun i => decide (C i ≠ R i))).length →
      ∃ s' i, check_loop v k C R l s = .error (s', i) ∧ s'.errors = 21 ∧ i ∈ l ∧
        s'.printed.getLast? = some .too_many_errors := by
  induction l with
  | nil => intro s h₁ h₂; simp at h₂; omega
  | cons j l ih =>
    intro s h₁ h₂
    rw [filter_ne_length_cons] at h₂
    have hs := mm_check_step_errors v k C R s j
    rw [check_loop]
    by_cases h20 : (check_step v k C R s j).errors > 20
    · simp only [h20, if_true]
      refine ⟨_, j, rfl, ?_, List.mem_cons_self _ _, ?_⟩
      · show (check_step v k C R s j).errors = 21
        split_ifs at hs <;> omega
      · simp
    · simp only [h20, if_false]
      obtain ⟨s', i, hs', he, hi, hp⟩ := ih (check_step v k C R s j) (by omega) (by omega)
      exact ⟨s', i, hs', he, List.mem_cons_of_mem _ hi, hp⟩

theorem mm_validate_below_cap (v : Int) (n k : Nat) (C R : Buffer)
    (h : mismatches (n * k) C R ≤ 20) :
    (validate v n k C R).errors = mismatches (n * k) C R ∧
    (validate v n k C R).index = n * k ∧
    (validate v n k C R).status =
      (if mismatches (n * k) C R = 0 then EXIT_SUCCESS else EXIT_FAILURE) ∧
    (validate v n k C R).printed.getLast? =
      some (if mismatches (n * k) C R = 0 then .added_correctly
        else .errors_found (mismatches (n * k) C R)) := by
  obtain ⟨s', hs', he⟩ := mm_check_loop_ok v k C R (List.range (n * k))
    ⟨0, if v ≠ 0 then [.checking] else []⟩ (by simpa [mismatches] using h)
  have he' : s'.errors = mismatches (n * k) C R := by
    rw [he]; simp [mismatches]
  unfold validate
  simp only [hs', he']
  split_ifs <;> simp [he']

theorem mm_validate_above_cap (v : Int) (n k : Nat) (C R : Buffer)
    (h : 20 < mismatches (n * k) C R) :
    (validate v n k C R).errors = 21 ∧
    (validate v n k C R).index < n * k ∧
    (validate v n k C R).status = EXIT_FAILURE ∧
    (validate v n k C R).printed.getLast? = some .too_many_errors := by
  obtain ⟨s', i, hs', he, hi, hp⟩ := mm_check_loop_exit v k C R (List.range (n * k))
    ⟨0, if v ≠ 0 then [.checking] else []⟩ (by simp) (by simpa [mismatches] using h)
  unfold validate
  simp only [hs']
  exact ⟨he, List.mem_range.1 hi, trivial, hp⟩

end MatrixMult

theorem mismatches_congr (len : Nat) (C R R' : Buffer) (h : ∀ i < len, R i = R' i) :
    mismatches len C R = mismatches len C R' := by
  unfold mismatches
  congr 1
  apply List.filter_congr
  intro i hi
  rw [h i (List.mem_range.1 hi)]

namespace VecAdd

theorem va_init_inputs_fold (len : Nat) (A B : Buffer) (n : Nat) (j : Nat) :
    ((List.range n).foldl
      (fun AB i => (Buffer.store AB.1 i (wrap32 i),
        Buffer.store AB.2 i (wrap32 ((len : Int) - i)))) (A, B)).1 j =
      (if j < n then wrap32 j else A j) ∧
    ((List.range n).foldl
      (fun AB i => (Buffer.store AB.1 i (wrap32 i),
        Buffer.store AB.2 i (wrap32 ((len : Int) - i)))) (A, B)).2 j =
      (if j < n then wrap32 ((len : Int) - j) else B j) := by
  induction n with
  | zero => simp
  | succ n ih =>
    rw [List.range_succ, List.foldl_append]
    simp only [List.foldl_cons, List.foldl_nil, Buffer.store]
    obtain ⟨ih₁, ih₂⟩ := ih
    by_cases hj : j = n
    · subst hj; simp
    · rw [if_neg hj, if_neg hj, ih₁, ih₂]
      by_cases hlt : j < n
      · have : j < n + 1 := by omega
        simp [hlt, this]
      · have : ¬ j < n + 1 := by omega
        simp [hlt, this]

/-- The initialisation loop stores `i` and `mem_lenth - i` at every index
`i < mem_lenth` when `mem_lenth` is an `int`. -/
theorem va_init_inputs_spec (len : Nat) (hlen : len ≤ 2147483647) (A B : Buffer) (i : Nat)
    (hi : i < len) :
    (init_inputs len A B).1 i = i ∧ (init_inputs len A B).2 i = (len : Int) - i := by
  obtain ⟨h₁, h₂⟩ := va_init_inputs_fold len A B len i
  unfold init_inputs
  rw [h₁, h₂, if_pos hi, if_pos hi]
  exact ⟨wrap32_of_range _ (by omega) (by omega), wrap32_of_range _ (by omega) (by omega)⟩

theorem va_init_inputs_sum (len : Nat) (hlen : len ≤ 2147483647) (A B : Buffer) (i : Nat)
    (hi : i < len) :
    add32 ((init_inputs len A B).1 i) ((init_inputs len A B).2 i) =
      (init_inputs len A B).1 i + (init_inputs len A B).2 i := by
  obtain ⟨h₁, h₂⟩ := va_init_inputs_spec len hlen A B i hi
  rw [h₁, h₂]
  exact wrap32_of_range _ (by omega) (by omega)

end VecAdd

/-- C4: in both programs the validation ends with status `EXIT_SUCCESS` (0)
exactly when the output agrees with the host reference at every index
(`C[i] = A[i] + B[i]`, the `cl_int` sum, for all `i < mem_lenth` in `vec_add`;
`C[i] = C_CPU[i]` for all `i < n * k` in `matrix_mult`), and with
`EXIT_FAILURE` otherwise; where the sums do not overflow the condition of
`vec_add` is equality with the integer sum. -/
theorem C4_exit_status_iff_all_equal (v : Int) (len : Nat) (A B C : Buffer)
    (n k : Nat) (C' C_CPU : Buffer) :
    ((VecAdd.validate v len A B C).status = EXIT_SUCCESS ↔
      ∀ i < len, C i = add32 (A i) (B i)) ∧
    (¬ (∀ i < len, C i = add32 (A i) (B i)) →
      (VecAdd.validate v len A B C).status = EXIT_FAILURE) ∧
    ((∀ i < len, add32 (A i) (B i) = A i + B i) →
      ((VecAdd.validate v len A B C).status = EXIT_SUCCESS ↔ ∀ i < len, C i = A i + B i)) ∧
    ((MatrixMult.validate v n k C' C_CPU).status = EXIT_SUCCESS ↔
      ∀ i < n * k, C' i = C_CPU i) ∧
    (¬ (∀ i < n * k, C' i = C_CPU i) →
      (MatrixMult.validate v n k C' C_CPU).status = EXIT_FAILURE) := by
  have hne : EXIT_FAILURE ≠ EXIT_SUCCESS := by decide
  have hv : (VecAdd.validate v len A B C).status = EXIT_SUCCESS ↔
      ∀ i < len, C i = add32 (A i) (B i) := by
    rw [VecAdd.va_validate_status, ← mismatches_eq_zero_iff]
    split_ifs with h
    · exact ⟨fun _ => h, fun _ => rfl⟩
    · exact ⟨fun h' => absurd h' hne, fun h' => absurd h' h⟩
  have hm : (MatrixMult.validate v n k C' C_CPU).status = EXIT_SUCCESS ↔
      ∀ i < n * k, C' i = C_CPU i := by
    rw [← mismatches_eq_zero_iff]
    by_cases hcap : mismatches (n * k) C' C_CPU ≤ 20
    · rw [(MatrixMult.mm_validate_below_cap v n k C' C_CPU hcap).2.2.1]
      split_ifs with h
      · exact ⟨fun _ => h, fun _ => rfl⟩
      · exact ⟨fun h' => absurd h' hne, fun h' => absurd h' h⟩
    · rw [(MatrixMult.mm_validate_above_cap v n k C' C_CPU (by omega)).2.2.1]
      exact ⟨fun h' => absurd h' hne, fun h' => by omega⟩
  refine ⟨hv, ?_, ?_, hm, ?_⟩
  · intro h
    rw [VecAdd.va_validate_status, if_neg]
    rwa [mismatches_eq_zero_iff]
  · intro hex
    rw [hv]
    constructor
    · intro h i hi; rw [h i hi, hex i hi]
    · intro h i hi; rw [h i hi, hex i hi]
  · intro h
    have h0 : mismatches (n * k) C' C_CPU ≠ 0 := by rwa [Ne, mismatches_eq_zero_iff]
    by_cases hcap : mismatches (n * k) C' C_CPU ≤ 20
    · rw [(MatrixMult.mm_validate_below_cap v n k C' C_CPU hcap).2.2.1, if_neg h0]
    · exact (MatrixMult.mm_validate_above_cap v n k C' C_CPU (by omega)).2.2.1

/-- C4 on the length 8 inputs of `vec_add` with a wrong entry at index 2, and
a 2 x 2 product that agrees with its reference: the first ends with
`EXIT_FAILURE`, the second with `EXIT_SUCCESS`. -/
theorem C4_exit_status_iff_all_equal_witness :
    ¬ (∀ i < 8, sample_output i =
        add32 ((VecAdd.init_inputs 8 (fun _ => 0) (fun _ => 0)).1 i)
          ((VecAdd.init_inputs 8 (fun _ => 0) (fun _ => 0)).2 i)) ∧
    (VecAdd.validate 0 8 (VecAdd.init_inputs 8 (fun _ => 0) (fun _ => 0)).1
      (VecAdd.init_inputs 8 (fun _ => 0) (fun _ => 0)).2 sample_output).status
      = EXIT_FAILURE ∧
    (MatrixMult.validate 0 2 2 sample_output sample_output).status = EXIT_SUCCESS :=
  ⟨by decide,
   (C4_exit_status_iff_all_equal 0 8 (VecAdd.init_inputs 8 (fun _ => 0) (fun _ => 0)).1
      (VecAdd.init_inputs 8 (fun _ => 0) (fun _ => 0)).2 sample_output 2 2 sample_output
      sample_output).2.1 (by decide),
   (C4_exit_status_iff_all_equal 0 0 sample_output sample_output sample_output 2 2
      sample_output sample_output).2.2.2.1.2 (fun _ _ => rfl)⟩

/-- C5 (as stated, refuted): on a 1 x 22 output that differs from the reference
at all 22 indices the validator of `matrix_mult` calls `exit` inside the loop
at index 20 with its counter at 21, not 22, and never prints a count. -/
theorem C5_count_stops_at_cap :
    mismatches (1 * 22) (fun _ => 1) (fun _ => 0) = 22 ∧
    (MatrixMult.validate 0 1 22 (fun _ => 1) (fun _ => 0)).errors = 21 ∧
    (MatrixMult.validate 0 1 22 (fun _ => 1) (fun _ => 0)).errors ≠
      mismatches (1 * 22) (fun _ => 1) (fun _ => 0) ∧
    (MatrixMult.validate 0 1 22 (fun _ => 1) (fun _ => 0)).index = 20 ∧
    (MatrixMult.validate 0 1 22 (fun _ => 1) (fun _ => 0)).status = EXIT_FAILURE ∧
    (MatrixMult.validate 0 1 22 (fun _ => 1) (fun _ => 0)).printed.getLast? =
      some .too_many_errors ∧
    Line.errors_found 22 ∉ (MatrixMult.validate 0 1 22 (fun _ => 1) (fun _ => 0)).printed := by
  decide

/-- C5 (amended): when at most 20 indices of `C` and `C_CPU` differ, the
validator of `matrix_mult` scans all `n * k` indices, its counter ends equal to
the exact number of differing indices, and, when that number is not zero, the
last line it prints reports exactly this count. -/
theorem C5_count_exact_within_cap (v : Int) (n k : Nat) (C C_CPU : Buffer)
    (h : mismatches (n * k) C C_CPU ≤ 20) :
    (MatrixMult.validate v n k C C_CPU).errors = mismatches (n * k) C C_CPU ∧
    (MatrixMult.validate v n k C C_CPU).index = n * k ∧
    (mismatches (n * k) C C_CPU ≠ 0 →
      (MatrixMult.validate v n k C C_CPU).printed.getLast? =
        some (.errors_found (mismatches (n * k) C C_CPU))) := by
  obtain ⟨h₁, h₂, _, h₄⟩ := MatrixMult.mm_validate_below_cap v n k C C_CPU h
  refine ⟨h₁, h₂, fun h0 => ?_⟩
  rw [h₄, if_neg h0]

/-- C5 (amended) on a 2 x 4 output with one wrong entry, verbose. -/
theorem C5_count_exact_within_cap_witness :
    mismatches (2 * 4) sample_output (fun _ => 8) ≤ 20 ∧
    (MatrixMult.validate 777 2 4 sample_output (fun _ => 8)).errors =
      mismatches (2 * 4) sample_output (fun _ => 8) ∧
    (MatrixMult.validate 777 2 4 sample_output (fun _ => 8)).index = 2 * 4 ∧
    mismatches (2 * 4) sample_output (fun _ => 8) = 1 :=
  ⟨by decide,
   (C5_count_exact_within_cap 777 2 4 sample_output (fun _ => 8) (by decide)).1,
   (C5_count_exact_within_cap 777 2 4 sample_output (fun _ => 8) (by decide)).2.1,
   by decide⟩

/-- C6: in `vec_add` the loop visits every index below `mem_lenth`, and the
final value of `errors` is the exact number of indices `i < mem_lenth` with
`C[i] != A[i] + B[i]` (the `cl_int` sum; the integer sum where it does not
overflow, as for the inputs the program builds); the count does not depend on
the verbose flag. -/
theorem C6_vec_add_counts_every_mismatch (v : Int) (len : Nat) (A B C : Buffer) :
    (VecAdd.validate v len A B C).errors = mismatches len C (fun i => add32 (A i) (B i)) ∧
    (VecAdd.validate v len A B C).index = len ∧
    (∀ v' : Int, (VecAdd.validate v' len A B C).errors = (VecAdd.validate v len A B C).errors) ∧
    ((∀ i < len, add32 (A i) (B i) = A i + B i) →
      (VecAdd.validate v len A B C).errors = mismatches len C (fun i => A i + B i)) ∧
    (VecAdd.validate v VecAdd.VEC_SIZE (VecAdd.init_inputs VecAdd.VEC_SIZE A B).1
        (VecAdd.init_inputs VecAdd.VEC_SIZE A B).2 C).errors =
      mismatches VecAdd.VEC_SIZE C
        (fun i => (VecAdd.init_inputs VecAdd.VEC_SIZE A B).1 i +
          (VecAdd.init_inputs VecAdd.VEC_SIZE A B).2 i) := by
  refine ⟨VecAdd.va_validate_errors v len A B C, VecAdd.va_validate_index v len A B C, ?_, ?_, ?_⟩
  · intro v'
    rw [VecAdd.va_validate_errors, VecAdd.va_validate_errors]
  · intro h
    rw [VecAdd.va_validate_errors]
    exact mismatches_congr len C _ _ h
  · rw [VecAdd.va_validate_errors]
    apply mismatches_congr
    intro i hi
    exact VecAdd.va_init_inputs_sum VecAdd.VEC_SIZE (by decide) A B i hi

/-- C6 on the length 8 inputs with one wrong entry: the counter is 1 and the
index reaches 8, verbose or not. -/
theorem C6_vec_add_counts_every_mismatch_witness :
    (VecAdd.validate 1 8 (VecAdd.init_inputs 8 (fun _ => 0) (fun _ => 0)).1
      (VecAdd.init_inputs 8 (fun _ => 0) (fun _ => 0)).2 sample_output).errors =
      mismatches 8 sample_output
        (fun i => add32 ((VecAdd.init_inputs 8 (fun _ => 0) (fun _ => 0)).1 i)
          ((VecAdd.init_inputs 8 (fun _ => 0) (fun _ => 0)).2 i)) ∧
    mismatches 8 sample_output
        (fun i => add32 ((VecAdd.init_inputs 8 (fun _ => 0) (fun _ => 0)).1 i)
          ((VecAdd.init_inputs 8 (fun _ => 0) (fun _ => 0)).2 i)) = 1 ∧
    (VecAdd.validate 1 8 (VecAdd.init_inputs 8 (fun _ => 0) (fun _ => 0)).1
      (VecAdd.init_inputs 8 (fun _ => 0) (fun _ => 0)).2 sample_output).index = 8 :=
  ⟨(C6_vec_add_counts_every_mismatch 1 8 (VecAdd.init_inputs 8 (fun _ => 0) (fun _ => 0)).1
      (VecAdd.init_inputs 8 (fun _ => 0) (fun _ => 0)).2 sample_output).1,
   by decide,
   (C6_vec_add_counts_every_mismatch 1 8 (VecAdd.init_inputs 8 (fun _ => 0) (fun _ => 0)).1
      (VecAdd.init_inputs 8 (fun _ => 0) (fun _ => 0)).2 sample_output).2.1⟩

/-! ## The host reference product -/

theorem store_same (C : Buffer) (p : Nat) (v : Int) : (C.store p v) p = v := by
  simp [Buffer.store]

theorem store_other (C : Buffer) (p q : Nat) (v : Int) (h : q ≠ p) :
    (C.store p v) q = C q := by
  simp [Buffer.store, h]

theorem store_store (C : Buffer) (p : Nat) (v w : Int) :
    (C.store p v).store p w = C.store p w := by
  funext q
  by_cases h : q = p <;> simp [Buffer.store, h]

theorem add32_wrap32_mul32 (s a b : Int) :
    add32 (wrap32 s) (mul32 a b) = wrap32 (s + a * b) := by
  unfold add32 mul32 wrap32
  omega

/-- The innermost loop of the product: starting from a zeroed cell it leaves
the wrapped sum of the products in the cell and touches nothing else. -/
theorem dot_loop (a b : Nat → Int) (p : Nat) (m : Nat) (C : Buffer) :
    (List.range m).foldl
        (fun C l => Buffer.store C p (add32 (C p) (mul32 (a l) (b l)))) (C.store p 0) =
      C.store p (wrap32 ((List.range m).map (fun l => a l * b l)).sum) := by
  induction m with
  | zero => rfl
  | succ m ih =>
    rw [List.range_succ, List.foldl_append, ih]
    simp only [List.foldl_cons, List.foldl_nil, List.map_append, List.map_cons, List.map_nil,
      List.sum_append, List.sum_cons, List.sum_nil, add_zero]
    rw [store_same, store_store, add32_wrap32_mul32]

/-- A loop of stores leaves `v` at `q` when every store to `q` writes `v` and
either `q` held `v` before or some store goes to `q`. -/
theorem foldl_store_eq {α : Type} (l : List α) (idx : α → Nat) (val : α → Int)
    (q : Nat) (v : Int) (hall : ∀ x ∈ l, idx x = q → val x = v) :
    ∀ C : Buffer, (C q = v ∨ ∃ x ∈ l, idx x = q) →
      (l.foldl (fun C x => Buffer.store C (idx x) (val x)) C) q = v := by
  induction l with
  | nil =>
    intro C h
    rcases h with h | ⟨x, hx, _⟩
    · exact h
    · simp at hx
  | cons x l ih =>
    intro C h
    rw [List.foldl_cons]
    apply ih (fun y hy => hall y (List.mem_cons_of_mem _ hy))
    by_cases hx : idx x = q
    · left
      rw [← hx, store_same, hall x (List.mem_cons_self _ _) hx]
    · rw [store_other _ _ _ _ (Ne.symm hx)]
      rcases h with h | ⟨y, hy, hyq⟩
      · exact Or.inl h
      · rcases List.mem_cons.1 hy with rfl | hy
        · exact absurd hyq hx
        · exact Or.inr ⟨y, hy, hyq⟩

/-- The same for two nested loops of stores. -/
theorem foldl_foldl_store_eq {α β : Type} (l₁ : List α) (l₂ : List β)
    (idx : α → β → Nat) (val : α → β → Int) (q : Nat) (v : Int)
    (hall : ∀ x ∈ l₁, ∀ y ∈ l₂, idx x y = q → val x y = v) :
    ∀ C : Buffer, (C q = v ∨ ∃ x ∈ l₁, ∃ y ∈ l₂, idx x y = q) →
      (l₁.foldl (fun C x => l₂.foldl (fun C y => Buffer.store C (idx x y) (val x y)) C) C) q
        = v := by
  induction l₁ with
  | nil =>
    intro C h
    rcases h with h | ⟨x, hx, _⟩
    · exact h
    · simp at hx
  | cons x l₁ ih =>
    intro C h
    rw [List.foldl_cons]
    apply ih (fun a ha => hall a (List.mem_cons_of_mem _ ha))
    by_cases hq : ∃ y ∈ l₂, idx x y = q
    · left
      exact foldl_store_eq l₂ (idx x) (val x) q v (hall x (List.mem_cons_self _ _)) C
        (Or.inr hq)
    · rcases h with h | ⟨a, ha, hy⟩
      · left
        exact foldl_store_eq l₂ (idx x) (val x) q v (hall x (List.mem_cons_self _ _)) C
          (Or.inl h)
      · rcases List.mem_cons.1 ha with rfl | ha
        · exact absurd hy hq
        · exact Or.inr ⟨a, ha, hy⟩

theorem pair_index_inj (k x y i j : Nat) (hy : y < k) (hj : j < k)
    (h : x * k + y = i * k + j) : x = i ∧ y = j := by
  have hx : x = i := by
    rcases Nat.lt_trichotomy x i with hlt | heq | hgt
    · have : (x + 1) * k ≤ i * k := Nat.mul_le_mul_right k hlt
      rw [Nat.add_mul] at this
      omega
    · exact heq
    · have : (i + 1) * k ≤ x * k := Nat.mul_le_mul_right k hgt
      rw [Nat.add_mul] at this
      omega
  subst hx
  exact ⟨rfl, by omega⟩

/-- The three nested loops of a product, with row factors `a i l` and column
factors `b j l`, leave the wrapped dot product in every cell `(i, j)`. -/
theorem product_loops (n m k : Nat) (a b : Nat → Nat → Int) (C : Buffer)
    (i j : Nat) (hi : i < n) (hj : j < k) :
    ((List.range n).foldl
      (fun C i => (List.range k).foldl
        (fun C j => (List.range m).foldl
          (fun C l => Buffer.store C (i * k + j)
            (add32 (C (i * k + j)) (mul32 (a i l) (b j l))))
          (C.store (i * k + j) 0))
        C)
      C) (i * k + j) = wrap32 ((List.range m).map (fun l => a i l * b j l)).sum := by
  simp only [dot_loop]
  apply foldl_foldl_store_eq (List.range n) (List.range k) (fun x y => x * k + y)
    (fun x y => wrap32 ((List.range m).map (fun l => a x l * b y l)).sum)
  · intro x _ y hy h
    obtain ⟨rfl, rfl⟩ := pair_index_inj k x y i j (List.mem_range.1 hy) hj h
    rfl
  · exact Or.inr ⟨i, List.mem_range.2 hi, j, List.mem_range.2 hj, rfl⟩

theorem MatrixMult.mm_reference_entry (n m k : Nat) (A Bt C : Buffer) (i j : Nat)
    (hi : i < n) (hj : j < k) :
    MatrixMult.reference n m k A Bt C (i * k + j) =
      wrap32 ((List.range m).map (fun l => A (i * m + l) * Bt (j * m + l))).sum :=
  product_loops n m k (fun i l => A (i * m + l)) (fun j l => Bt (j * m + l)) C i j hi hj

theorem naive_product_entry (n m k : Nat) (A B C : Buffer) (i j : Nat)
    (hi : i < n) (hj : j < k) :
    naive_product n m k A B C (i * k + j) = wrap32 (exact_entry m k A B i j) :=
  product_loops n m k (fun i l => A (i * m + l)) (fun j l => B (l * k + j)) C i j hi hj

theorem foldl_pair {α : Type} (l : List α) (f g : Buffer → α → Buffer) :
    ∀ BB : Buffer × Buffer,
      l.foldl (fun BB x => (f BB.1 x, g BB.2 x)) BB = (l.foldl f BB.1, l.foldl g BB.2) := by
  induction l with
  | nil => intro BB; rfl
  | cons x l ih => intro BB; rw [List.foldl_cons, ih]; rfl

/-- The initialisation of `B` and `B_transposed` stores the same value at
`B[i * k + j]` and at `B_transposed[j * m + i]`. -/
theorem MatrixMult.mm_init_B_spec (m k : Nat) (B Bt : Buffer) (i j : Nat)
    (hi : i < m) (hj : j < k) :
    (MatrixMult.init_B m k B Bt).1 (i * k + j) =
        Int.tmod (mul32 i j) (mul32 3 (add32 m k)) ∧
    (MatrixMult.init_B m k B Bt).2 (j * m + i) =
        Int.tmod (mul32 i j) (mul32 3 (add32 m k)) := by
  unfold MatrixMult.init_B
  have hin : ∀ (x : Nat) (BB : Buffer × Buffer),
      (List.range k).foldl
        (fun BB j =>
          (Buffer.store BB.1 (x * k + j) (Int.tmod (mul32 x j) (mul32 3 (add32 m k))),
           Buffer.store BB.2 (j * m + x) (Int.tmod (mul32 x j) (mul32 3 (add32 m k))))) BB =
      ((List.range k).foldl
          (fun C j => Buffer.store C (x * k + j)
            (Int.tmod (mul32 x j) (mul32 3 (add32 m k)))) BB.1,
       (List.range k).foldl
          (fun C j => Buffer.store C (j * m + x)
            (Int.tmod (mul32 x j) (mul32 3 (add32 m k)))) BB.2) := by
    intro x BB
    exact foldl_pair (List.range k)
      (fun C j => Buffer.store C (x * k + j) (Int.tmod (mul32 x j) (mul32 3 (add32 m k))))
      (fun C j => Buffer.store C (j * m + x) (Int.tmod (mul32 x j) (mul32 3 (add32 m k)))) BB
  simp only [hin]
  rw [foldl_pair (List.range m)
    (fun C x => (List.range k).foldl
      (fun C j => Buffer.store C (x * k + j)
        (Int.tmod (mul32 x j) (mul32 3 (add32 m k)))) C)
    (fun C x => (List.range k).foldl
      (fun C j => Buffer.store C (j * m + x)
        (Int.tmod (mul32 x j) (mul32 3 (add32 m k)))) C)]
  constructor
  · apply foldl_foldl_store_eq (List.range m) (List.range k) (fun x y => x * k + y)
      (fun x y => Int.tmod (mul32 x y) (mul32 3 (add32 m k)))
    · intro x _ y hy h
      obtain ⟨rfl, rfl⟩ := pair_index_inj k x y i j (List.mem_range.1 hy) hj h
      rfl
    · exact Or.inr ⟨i, List.mem_range.2 hi, j, List.mem_range.2 hj, rfl⟩
  · apply foldl_foldl_store_eq (List.range m) (List.range k) (fun x y => y * m + x)
      (fun x y => Int.tmod (mul32 x y) (mul32 3 (add32 m k)))
    · intro x hx y _ h
      obtain ⟨rfl, rfl⟩ := pair_index_inj m y x j i (List.mem_range.1 hx) hi h
      rfl
    · exact Or.inr ⟨i, List.mem_range.2 hi, j, List.mem_range.2 hj, rfl⟩

/-- The transposed copy the program builds is the transpose of `B`. -/
theorem MatrixMult.mm_init_B_transposed (m k : Nat) (B Bt : Buffer) :
    ∀ i < m, ∀ j < k,
      (MatrixMult.init_B m k B Bt).2 (j * m + i) = (MatrixMult.init_B m k B Bt).1 (i * k + j) := by
  intro i hi j hj
  obtain ⟨h₁, h₂⟩ := MatrixMult.mm_init_B_spec m k B Bt i j hi hj
  rw [h₁, h₂]

/-- C3: for all dimensions and all matrices `A` (n x m) and `B` (m x k), when
`B_transposed[j * m + i] = B[i * k + j]` the host reference loop leaves in
`C_CPU[i * k + j]`, for every `i < n` and `j < k`, the value the naive triple
loop over `B` computes, which is the sum over `l < m` of
`A[i * m + l] * B[l * k + j]` wrapped to 32 bits, whatever the buffers held
before. -/
theorem C3_reference_equals_naive_product (n m k : Nat) (A B B_transposed C_CPU C : Buffer)
    (hT : ∀ i < m, ∀ j < k, B_transposed (j * m + i) = B (i * k + j))
    (i j : Nat) (hi : i < n) (hj : j < k) :
    MatrixMult.reference n m k A B_transposed C_CPU (i * k + j) =
      naive_product n m k A B C (i * k + j) ∧
    MatrixMult.reference n m k A B_transposed C_CPU (i * k + j) =
      wrap32 (exact_entry m k A B i j) := by
  have h : MatrixMult.reference n m k A B_transposed C_CPU (i * k + j) =
      wrap32 (exact_entry m k A B i j) := by
    rw [MatrixMult.mm_reference_entry n m k A B_transposed C_CPU i j hi hj, exact_entry]
    congr 2
    apply List.map_congr_left
    intro l hl
    rw [hT l (List.mem_range.1 hl) j hj]
  exact ⟨by rw [h, naive_product_entry n m k A B C i j hi hj], h⟩

/-- C3 on a 2 x 3 times 3 x 2 product with the program's own `B` and
`B_transposed`, entry `(1, 1)`: both loops give 8. -/
theorem C3_reference_equals_naive_product_witness :
    (∀ i < 3, ∀ j < 2,
      (MatrixMult.init_B 3 2 (fun _ => 0) (fun _ => 0)).2 (j * 3 + i) =
        (MatrixMult.init_B 3 2 (fun _ => 0) (fun _ => 0)).1 (i * 2 + j)) ∧
    1 < 2 ∧
    (MatrixMult.reference 2 3 2 (MatrixMult.init_A 2 3 (fun _ => 0))
        (MatrixMult.init_B 3 2 (fun _ => 0) (fun _ => 0)).2 (fun _ => 7) (1 * 2 + 1) =
      naive_product 2 3 2 (MatrixMult.init_A 2 3 (fun _ => 0))
        (MatrixMult.init_B 3 2 (fun _ => 0) (fun _ => 0)).1 (fun _ => 9) (1 * 2 + 1) ∧
     MatrixMult.reference 2 3 2 (MatrixMult.init_A 2 3 (fun _ => 0))
        (MatrixMult.init_B 3 2 (fun _ => 0) (fun _ => 0)).2 (fun _ => 7) (1 * 2 + 1) =
      wrap32 (exact_entry 3 2 (MatrixMult.init_A 2 3 (fun _ => 0))
        (MatrixMult.init_B 3 2 (fun _ => 0) (fun _ => 0)).1 1 1)) ∧
    MatrixMult.reference 2 3 2 (MatrixMult.init_A 2 3 (fun _ => 0))
        (MatrixMult.init_B 3 2 (fun _ => 0) (fun _ => 0)).2 (fun _ => 7) (1 * 2 + 1) = 8 :=
  ⟨by decide, by decide,
   C3_reference_equals_naive_product 2 3 2 (MatrixMult.init_A 2 3 (fun _ => 0))
     (MatrixMult.init_B 3 2 (fun _ => 0) (fun _ => 0)).1
     (MatrixMult.init_B 3 2 (fun _ => 0) (fun _ => 0)).2 (fun _ => 7) (fun _ => 9)
     (by decide) 1 1 (by decide) (by decide),
   by decide⟩

/-! ## The error handler -/

theorem cl_problem_listed : ∀ e ∈ listed_errors, cl_problem e.2 = category_of_name e.1 := by
  decide

theorem category_ne_unknown : ∀ e ∈ listed_errors, category_of_name e.1 ≠ "unknown" := by
  decide

theorem cl_problem_unlisted (r : Int) (h : ∀ e ∈ listed_errors, r ≠ e.2) :
    cl_problem r = "unknown" := by
  have h' : ∀ c ∈ listed_errors.map Prod.snd, r ≠ c := by
    intro c hc
    obtain ⟨e, he, rfl⟩ := List.mem_map.1 hc
    exact h e he
  unfold cl_problem
  rw [if_neg (h' CL_BUILD_PROGRAM_FAILURE (by decide)),
    if_neg (h' CL_COMPILER_NOT_AVAILABLE (by decide)),
    if_neg (h' CL_DEVICE_NOT_AVAILABLE (by decide)), if_neg (h' CL_DEVICE_NOT_FOUND (by decide)),
    if_neg (h' CL_INVALID_ARG_INDEX (by decide)), if_neg (h' CL_INVALID_ARG_SIZE (by decide)),
    if_neg (h' CL_INVALID_ARG_VALUE (by decide)), if_neg (h' CL_INVALID_BINARY (by decide)),
    if_neg (h' CL_INVALID_BUILD_OPTIONS (by decide)), if_neg (h' CL_INVALID_CONTEXT (by decide)),
    if_neg (h' CL_INVALID_DEVICE (by decide)), if_neg (h' CL_INVALID_DEVICE_TYPE (by decide)),
    if_neg (h' CL_INVALID_DEVICE_QUEUE (by decide)), if_neg (h' CL_INVALID_KERNEL (by decide)),
    if_neg (h' CL_INVALID_KERNEL_NAME (by decide)),
    if_neg (h' CL_INVALID_KERNEL_DEFINITION (by decide)),
    if_neg (h' CL_INVALID_MEM_OBJECT (by decide)), if_neg (h' CL_INVALID_OPERATION (by decide)),
    if_neg (h' CL_INVALID_PLATFORM (by decide)), if_neg (h' CL_INVALID_PROGRAM (by decide)),
    if_neg (h' CL_INVALID_PROGRAM_EXECUTABLE (by decide)),
    if_neg (h' CL_INVALID_PROPERTY (by decide)),
    if_neg (h' CL_INVALID_QUEUE_PROPERTIES (by decide)),
    if_neg (h' CL_INVALID_SAMPLER (by decide)), if_neg (h' CL_INVALID_VALUE (by decide)),
    if_neg (h' CL_OUT_OF_HOST_MEMORY (by decide)), if_neg (h' CL_OUT_OF_RESOURCES (by decide))]

theorem not_success_listed : ∀ e ∈ listed_errors, e.2 ≠ CL_SUCCESS := by
  decide

/-- C12: `cl_handle_return_value` returns normally exactly for `CL_SUCCESS`;
for every other code it ends the process with `EXIT_FAILURE` after the report
of a category, the file name, the line and the raw code.  For each error code
the `switch` names the category is the code's own name, and the category is
`"unknown"` exactly for the codes it does not name. -/
theorem C12_handler_returns_iff_success (r : Int) (filename : String) (line : Int) :
    (cl_handle_return_value r filename line = .ok () ↔ r = CL_SUCCESS) ∧
    (r ≠ CL_SUCCESS →
      cl_handle_return_value r filename line =
        .error ⟨EXIT_FAILURE, .cl_error (cl_problem r) filename line r⟩) ∧
    (∀ e ∈ listed_errors, cl_problem e.2 = category_of_name e.1 ∧
      cl_handle_return_value e.2 filename line =
        .error ⟨EXIT_FAILURE, .cl_error (category_of_name e.1) filename line e.2⟩) ∧
    (cl_problem r = "unknown" ↔ ∀ e ∈ listed_errors, r ≠ e.2) := by
  refine ⟨?_, ?_, ?_, ?_⟩
  · unfold cl_handle_return_value
    by_cases h : r = CL_SUCCESS
    · simp [h]
    · simp [h]
  · intro h
    unfold cl_handle_return_value
    rw [if_neg h]
  · intro e he
    refine ⟨cl_problem_listed e he, ?_⟩
    unfold cl_handle_return_value
    rw [if_neg (not_success_listed e he), cl_problem_listed e he]
  · constructor
    · intro h e he hr
      rw [hr, cl_problem_listed e he] at h
      exact category_ne_unknown e he h
    · exact cl_problem_unlisted r

/-- C12 at the codes `CL_DEVICE_NOT_FOUND` (-1, named by the `switch`) and -4
(not named): both end the process, the first with the category
`"device not found"`, the second with `"unknown"`. -/
theorem C12_handler_returns_iff_success_witness :
    CL_DEVICE_NOT_FOUND ≠ CL_SUCCESS ∧
    cl_handle_return_value CL_DEVICE_NOT_FOUND "vec_add.c" 353 =
      .error ⟨EXIT_FAILURE, .cl_error "device not found" "vec_add.c" 353 (-1)⟩ ∧
    cl_handle_return_value (-4) "vec_add.c" 353 =
      .error ⟨EXIT_FAILURE, .cl_error "unknown" "vec_add.c" 353 (-4)⟩ :=
  ⟨by decide,
   (C12_handler_returns_iff_success CL_DEVICE_NOT_FOUND "vec_add.c" 353).2.1 (by decide),
   (C12_handler_returns_iff_success (-4) "vec_add.c" 353).2.1 (by decide)⟩

/-! ## Context creation -/

theorem handler_ok_iff (r : Int) (filename : String) (line : Int) :
    cl_handle_return_value r filename line = .ok () ↔ r = CL_SUCCESS := by
  unfold cl_handle_return_value
  by_cases h : r = CL_SUCCESS <;> simp [h]

/-- C16: in `main` of `vec_add`, whatever code `clCreateContext` writes, the
test `ret == CL_DEVICE_NOT_AVAILABLE` is reached only with `ret = CL_SUCCESS`,
so its branch is never entered: the fragment ends exactly as its first
`CL_CHECK_RET` does, for every answer the runtime could give inside the
branch, and the second `CL_CHECK_RET` never fails. -/
theorem C16_device_not_available_branch_is_dead (ret : Int) (d : VecAdd.DiagnosticReplies) :
    (cl_handle_return_value ret VecAdd.check_sites.file 80 = .ok () →
      ret = CL_SUCCESS ∧ ret ≠ CL_DEVICE_NOT_AVAILABLE) ∧
    VecAdd.create_context ret d = cl_handle_return_value ret VecAdd.check_sites.file 80 ∧
    (ret ≠ CL_SUCCESS →
      VecAdd.create_context ret d =
        .error ⟨EXIT_FAILURE, .cl_error (cl_problem ret) VecAdd.check_sites.file 80 ret⟩) ∧
    VecAdd.create_context ret d ≠ VecAdd.device_not_available_branch d := by
  have hna : CL_SUCCESS ≠ CL_DEVICE_NOT_AVAILABLE := by decide
  have hfrag : VecAdd.create_context ret d =
      cl_handle_return_value ret VecAdd.check_sites.file 80 := by
    unfold VecAdd.create_context
    by_cases h : ret = CL_SUCCESS
    · subst h
      simp [cl_handle_return_value, hna]
      rfl
    · simp only [cl_handle_return_value, if_neg h]
      rfl
  refine ⟨?_, hfrag, ?_, ?_⟩
  · intro h
    have hs := (handler_ok_iff ret _ _).1 h
    exact ⟨hs, by rw [hs]; exact hna⟩
  · intro h
    rw [hfrag]
    unfold cl_handle_return_value
    rw [if_neg h]
  · rw [hfrag]
    unfold VecAdd.device_not_available_branch cl_handle_return_value
    by_cases h : ret = CL_SUCCESS
    · rw [if_pos h]
      split_ifs <;> simp [bind, Except.bind]
    · rw [if_neg h]
      split_ifs <;> simp [bind, Except.bind, VecAdd.check_sites]

/-- C16 at `ret = CL_DEVICE_NOT_AVAILABLE` with a runtime that would answer
the diagnostic queries: the process ends at line 80 with the handler's report,
not with the `Device` line of the branch. -/
theorem C16_device_not_available_branch_is_dead_witness :
    CL_DEVICE_NOT_AVAILABLE ≠ CL_SUCCESS ∧
    VecAdd.create_context CL_DEVICE_NOT_AVAILABLE ⟨0, 0, 0, "Some GPU"⟩ =
      .error ⟨EXIT_FAILURE, .cl_error "device not available" "vec_add.c" 80 (-2)⟩ ∧
    VecAdd.device_not_available_branch ⟨0, 0, 0, "Some GPU"⟩ =
      .error ⟨EXIT_FAILURE, .device "Some GPU"⟩ :=
  ⟨by decide,
   (C16_device_not_available_branch_is_dead CL_DEVICE_NOT_AVAILABLE ⟨0, 0, 0, "Some GPU"⟩).2.2.1
     (by decide),
   by decide⟩

/-! ## Kernel file name and flags -/

theorem k_operands_cons_ne (a : String) (rest : List String) (h : a ≠ "-k") :
    k_operands (a :: rest) = k_operands rest := by
  cases rest with
  | nil => rfl
  | cons x r => simp [k_operands, h]

theorem k_operands_k_cons (f : String) (r : List String) :
    k_operands ("-k" :: f :: r) = f :: k_operands r := by
  simp [k_operands]

theorem filename_after_nil (cur : String) : filename_after cur [] = cur := rfl

theorem filename_after_cons_ne (cur a : String) (rest : List String) (h : a ≠ "-k") :
    filename_after cur (a :: rest) = filename_after cur rest := by
  unfold filename_after
  rw [k_operands_cons_ne a rest h]

theorem filename_after_k_cons (cur f : String) (r : List String) :
    filename_after cur ("-k" :: f :: r) = filename_after f r := by
  unfold filename_after
  rw [k_operands_k_cons, List.getLast?_cons]
  rfl

theorem exists_option_cons_ne (P : String → Prop) (a : String) (rest : List String)
    (h : a ≠ "-k") :
    (∃ x ∈ option_args (a :: rest), P x) ↔ P a ∨ ∃ x ∈ option_args rest, P x := by
  rw [option_args_cons_ne a rest h]
  simp

theorem exists_option_k_cons (P : String → Prop) (hP : ¬ P "-k") (f : String)
    (r : List String) :
    (∃ x ∈ option_args ("-k" :: f :: r), P x) ↔ ∃ x ∈ option_args r, P x := by
  rw [option_args_k_cons]
  simp [hP]

theorem exists_option_nil (P : String → Prop) : ¬ ∃ x ∈ option_args [], P x := by
  simp [option_args]

theorem verbose_requested_nil : ¬ verbose_requested [] := exists_option_nil _

theorem verbose_requested_cons_ne (a : String) (rest : List String) (h : a ≠ "-k") :
    verbose_requested (a :: rest) ↔ (a = "-v" ∨ a = "--verbose") ∨ verbose_requested rest :=
  exists_option_cons_ne _ a rest h

theorem verbose_requested_k_cons (f : String) (r : List String) :
    verbose_requested ("-k" :: f :: r) ↔ verbose_requested r :=
  exists_option_k_cons (fun a => a = "-v" ∨ a = "--verbose") (by decide) f r

theorem timing_requested_nil : ¬ timing_requested [] := exists_option_nil _

theorem timing_requested_cons_ne (a : String) (rest : List String) (h : a ≠ "-k") :
    timing_requested (a :: rest) ↔ (a = "-wt" ∨ a = "--with-timing") ∨ timing_requested rest :=
  exists_option_cons_ne _ a rest h

theorem timing_requested_k_cons (f : String) (r : List String) :
    timing_requested ("-k" :: f :: r) ↔ timing_requested r :=
  exists_option_k_cons (fun a => a = "-wt" ∨ a = "--with-timing") (by decide) f r

theorem va_args_fields (b : Build) :
    ∀ (n : Nat) (args : List String), args.length = n → ∀ c c' : VecAdd.config_t,
      VecAdd.configurate_args b args c = .ok c' →
      c'.kernel_filename = filename_after c.kernel_filename args ∧
      c'.be_verbose = if verbose_requested args then 1 else c.be_verbose := by
  intro n
  induction n using Nat.strong_induction_on with
  | _ n ih =>
    intro args hn c c' hc
    cases args with
    | nil =>
      cases hc
      exact ⟨rfl, by rw [if_neg verbose_requested_nil]⟩
    | cons a rest =>
      have hlt : rest.length < n := by rw [← hn]; simp
      by_cases hk : a = "-k"
      · subst hk
        cases rest with
        | nil => rw [VecAdd.va_args_k_nil] at hc; cases hc
        | cons f r =>
          have hlt' : r.length < n := by rw [← hn]; simp; omega
          rw [VecAdd.va_args_k_cons] at hc
          obtain ⟨h₁, h₂⟩ := ih _ hlt' r rfl _ _ hc
          rw [filename_after_k_cons]
          refine ⟨h₁, ?_⟩
          rw [h₂]
          simp only [verbose_requested_k_cons]
      · by_cases hv : a = "-v" ∨ a = "--verbose"
        · rw [VecAdd.va_args_verbose b a rest c hv] at hc
          obtain ⟨h₁, h₂⟩ := ih _ hlt rest rfl _ _ hc
          rw [filename_after_cons_ne _ a rest hk]
          refine ⟨h₁, ?_⟩
          have hreq : verbose_requested (a :: rest) :=
            (verbose_requested_cons_ne a rest hk).2 (Or.inl hv)
          rw [h₂, if_pos hreq]
          split_ifs <;> rfl
        · by_cases hd : is_device_option a
          · rw [VecAdd.va_args_device b a rest c hd] at hc
            obtain ⟨h₁, h₂⟩ := ih _ hlt rest rfl _ _ hc
            rw [filename_after_cons_ne _ a rest hk]
            refine ⟨h₁, ?_⟩
            rw [h₂]
            simp only [verbose_requested_cons_ne a rest hk, hv, false_or]
          · have hkn : ¬ VecAdd.known_option a := by
              rintro (h | h | h | h)
              · exact hv (Or.inl h)
              · exact hv (Or.inr h)
              · exact hk h
              · exact hd h
            rw [VecAdd.va_args_unknown b a rest c hkn] at hc
            cases hc

theorem mm_args_fields (b : Build) :
    ∀ (n : Nat) (args : List String), args.length = n → ∀ c c' : MatrixMult.config_t,
      MatrixMult.configurate_args b args c = .ok c' →
      c'.kernel_filename = filename_after c.kernel_filename args ∧
      (c'.be_verbose = if verbose_requested args then 777 else c.be_verbose) ∧
      c'.with_timing = if timing_requested args then 777 else c.with_timing := by
  intro n
  induction n using Nat.strong_induction_on with
  | _ n ih =>
    intro args hn c c' hc
    cases args with
    | nil =>
      cases hc
      exact ⟨rfl, by rw [if_neg verbose_requested_nil], by rw [if_neg timing_requested_nil]⟩
    | cons a rest =>
      have hlt : rest.length < n := by rw [← hn]; simp
      by_cases hk : a = "-k"
      · subst hk
        cases rest with
        | nil => rw [MatrixMult.mm_args_k_nil] at hc; cases hc
        | cons f r =>
          have hlt' : r.length < n := by rw [← hn]; simp; omega
          rw [MatrixMult.mm_args_k_cons] at hc
          obtain ⟨h₁, h₂, h₃⟩ := ih _ hlt' r rfl _ _ hc
          rw [filename_after_k_cons]
          refine ⟨h₁, ?_, ?_⟩
          · rw [h₂]
            simp only [verbose_requested_k_cons]
          · rw [h₃]
            simp only [timing_requested_k_cons]
      · by_cases hv : a = "-v" ∨ a = "--verbose"
        · have hw : ¬ (a = "-wt" ∨ a = "--with-timing") := by
            rcases hv with rfl | rfl <;> decide
          rw [MatrixMult.mm_args_verbose b a rest c hv] at hc
          obtain ⟨h₁, h₂, h₃⟩ := ih _ hlt rest rfl _ _ hc
          rw [filename_after_cons_ne _ a rest hk]
          refine ⟨h₁, ?_, ?_⟩
          · have hreq : verbose_requested (a :: rest) :=
              (verbose_requested_cons_ne a rest hk).2 (Or.inl hv)
            rw [h₂, if_pos hreq]
            split_ifs <;> rfl
          · rw [h₃]
            simp only [timing_requested_cons_ne a rest hk, hw, false_or]
        · by_cases hw : a = "-wt" ∨ a = "--with-timing"
          · rw [MatrixMult.mm_args_timing b a rest c hw] at hc
            obtain ⟨h₁, h₂, h₃⟩ := ih _ hlt rest rfl _ _ hc
            rw [filename_after_cons_ne _ a rest hk]
            refine ⟨h₁, ?_, ?_⟩
            · rw [h₂]
              simp only [verbose_requested_cons_ne a rest hk, hv, false_or]
            · have hreq : timing_requested (a :: rest) :=
                (timing_requested_cons_ne a rest hk).2 (Or.inl hw)
              rw [h₃, if_pos hreq]
              split_ifs <;> rfl
          · by_cases hd : is_device_option a
            · rw [MatrixMult.mm_args_device b a rest c hd] at hc
              obtain ⟨h₁, h₂, h₃⟩ := ih _ hlt rest rfl _ _ hc
              rw [filename_after_cons_ne _ a rest hk]
              refine ⟨h₁, ?_, ?_⟩
              · rw [h₂]
                simp only [verbose_requested_cons_ne a rest hk, hv, false_or]
              · rw [h₃]
                simp only [timing_requested_cons_ne a rest hk, hw, false_or]
            · have hkn : ¬ MatrixMult.known_option a := by
                rintro (h | h | h | h | h)
                · exact hv (Or.inl h)
                · exact hv (Or.inr h)
                · exact hk h
                · exact hd h
                · exact hw h
              rw [MatrixMult.mm_args_unknown b a rest c hkn] at hc
              cases hc

/-- C11: whenever `configurate` of either program returns a configuration, its
`kernel_filename` is the operand of the last `-k` in option position, and the
program's default when there is no `-k`; the operand is stored as it is and is
not read as an option (the verbose and timing flags are set exactly when an
argument in option position asks for them, so `-k -v` gives the file name `-v`
with verbose off); the step for `-k <path>` changes no field but
`kernel_filename`. -/
theorem C11_kernel_filename_is_last_k_operand (b : Build) (argv : List String) :
    (∀ c, VecAdd.configurate b argv = .ok c →
      c.kernel_filename = filename_after VecAdd.STD_KERNEL_FILENAME (argv.drop 1) ∧
      (c.be_verbose ≠ 0 ↔ verbose_requested (argv.drop 1))) ∧
    (∀ c, MatrixMult.configurate b argv = .ok c →
      c.kernel_filename = filename_after MatrixMult.STD_KERNEL_FILENAME (argv.drop 1) ∧
      (c.be_verbose ≠ 0 ↔ verbose_requested (argv.drop 1)) ∧
      (c.with_timing ≠ 0 ↔ timing_requested (argv.drop 1))) ∧
    (∀ std : String, k_operands (argv.drop 1) = [] → filename_after std (argv.drop 1) = std) ∧
    (∀ (path : String) (rest : List String) (c : VecAdd.config_t),
      VecAdd.configurate_args b ("-k" :: path :: rest) c =
        VecAdd.configurate_args b rest
          ⟨c.type, c.be_verbose, path⟩) ∧
    (∀ (path : String) (rest : List String) (c : MatrixMult.config_t),
      MatrixMult.configurate_args b ("-k" :: path :: rest) c =
        MatrixMult.configurate_args b rest
          ⟨c.type, c.be_verbose, c.with_timing, path⟩) ∧
    (∀ prog, VecAdd.configurate b [prog, "-k", "-v"] = .ok ⟨default_type b, 0, "-v"⟩) ∧
    (∀ prog, MatrixMult.configurate b [prog, "-k", "-v"] =
      .ok ⟨default_type b, 0, 0, "-v"⟩) := by
  refine ⟨?_, ?_, ?_, ?_, ?_, ?_, ?_⟩
  · intro c hc
    by_cases h : argv.length < 1
    · have h0 : (argv.length : Int) < 1 := by omega
      simp only [VecAdd.configurate, if_pos h0] at hc
      cases hc
    · rw [VecAdd.va_configurate_eq b argv h] at hc
      obtain ⟨h₁, h₂⟩ := va_args_fields b _ (argv.drop 1) rfl _ c hc
      refine ⟨h₁, ?_⟩
      rw [h₂]
      split_ifs with hv
      · exact ⟨fun _ => hv, fun _ => by decide⟩
      · exact ⟨fun h' => absurd rfl h', fun h' => absurd h' hv⟩
  · intro c hc
    by_cases h : argv.length < 1
    · have h0 : (argv.length : Int) < 1 := by omega
      simp only [MatrixMult.configurate, if_pos h0] at hc
      cases hc
    · rw [MatrixMult.mm_configurate_eq b argv h] at hc
      obtain ⟨h₁, h₂, h₃⟩ := mm_args_fields b _ (argv.drop 1) rfl _ c hc
      refine ⟨h₁, ?_, ?_⟩
      · rw [h₂]
        split_ifs with hv
        · exact ⟨fun _ => hv, fun _ => by decide⟩
        · exact ⟨fun h' => absurd rfl h', fun h' => absurd h' hv⟩
      · rw [h₃]
        split_ifs with hw
        · exact ⟨fun _ => hw, fun _ => by decide⟩
        · exact ⟨fun h' => absurd rfl h', fun h' => absurd h' hw⟩
  · intro std h
    unfold filename_after
    rw [h]
    rfl
  · intro path rest c
    exact VecAdd.va_args_k_cons b path rest c
  · intro path rest c
    exact MatrixMult.mm_args_k_cons b path rest c
  · intro prog; rfl
  · intro prog; rfl

/-- C11 on a command line with two `-k`, the first taking `-v` as its operand:
the file name is the operand of the second and verbose stays off. -/
theorem C11_kernel_filename_is_last_k_operand_witness :
    VecAdd.configurate ⟨false, false⟩ ["vec_add", "-k", "-v", "--device=CPU", "-k", "my.cl"] =
      .ok ⟨CL_DEVICE_TYPE_CPU, 0, "my.cl"⟩ ∧
    "my.cl" = filename_after VecAdd.STD_KERNEL_FILENAME
      (["vec_add", "-k", "-v", "--device=CPU", "-k", "my.cl"].drop 1) ∧
    ¬ verbose_requested (["vec_add", "-k", "-v", "--device=CPU", "-k", "my.cl"].drop 1) :=
  ⟨by decide,
   ((C11_kernel_filename_is_last_k_operand ⟨false, false⟩
      ["vec_add", "-k", "-v", "--device=CPU", "-k", "my.cl"]).1
      ⟨CL_DEVICE_TYPE_CPU, 0, "my.cl"⟩ (by decide)).1,
   by decide⟩

/-! ## The inputs of `vec_add` -/

theorem VecAdd.va_validate_all_equal (v : Int) (len : Nat) (A B C : Buffer)
    (h : ∀ i < len, C i = add32 (A i) (B i)) :
    (VecAdd.validate v len A B C).errors = 0 ∧
    (VecAdd.validate v len A B C).status = EXIT_SUCCESS ∧
    (VecAdd.validate v len A B C).printed.getLast? = some .added_correctly := by
  have h0 : mismatches len C (fun i => add32 (A i) (B i)) = 0 :=
    (mismatches_eq_zero_iff len C _).2 h
  have he : (VecAdd.check_loop v A B C (List.range len) ⟨0, []⟩ 0).1.errors = 0 := by
    rw [VecAdd.va_check_loop_errors]
    simpa [mismatches] using h0
  refine ⟨by rw [VecAdd.va_validate_errors, h0], by rw [VecAdd.va_validate_status, if_pos h0], ?_⟩
  unfold VecAdd.validate
  simp only [he, if_true]
  simp

/-- C13: for every vector length `n` that an `int` holds, the inputs built by
`vec_add` are `A[i] = i` and `B[i] = n - i`, so `A[i] + B[i] = n` at every
`i < n` (also as a `cl_int` sum); an output with `C[i] = n` everywhere gives
zero mismatches and exit status 0.  For `n = 8`: `A = [0..7]`,
`B = [8,7,..,1]`, expected `C = [8,..,8]`, verdict 0 errors and status 0. -/
theorem C13_vec_add_inputs_sum_to_length (v : Int) (n : Nat) (hn : n ≤ 2147483647)
    (A0 B0 C : Buffer) :
    (∀ i < n,
      (VecAdd.init_inputs n A0 B0).1 i = i ∧
      (VecAdd.init_inputs n A0 B0).2 i = (n : Int) - i ∧
      (VecAdd.init_inputs n A0 B0).1 i + (VecAdd.init_inputs n A0 B0).2 i = n ∧
      add32 ((VecAdd.init_inputs n A0 B0).1 i) ((VecAdd.init_inputs n A0 B0).2 i) = n) ∧
    ((∀ i < n, C i = n) →
      mismatches n C (fun i => (VecAdd.init_inputs n A0 B0).1 i +
        (VecAdd.init_inputs n A0 B0).2 i) = 0 ∧
      (VecAdd.validate v n (VecAdd.init_inputs n A0 B0).1 (VecAdd.init_inputs n A0 B0).2
        C).errors = 0 ∧
      (VecAdd.validate v n (VecAdd.init_inputs n A0 B0).1 (VecAdd.init_inputs n A0 B0).2
        C).status = EXIT_SUCCESS ∧
      (VecAdd.validate v n (VecAdd.init_inputs n A0 B0).1 (VecAdd.init_inputs n A0 B0).2
        C).printed.getLast? = some .added_correctly) ∧
    (List.range 8).map (VecAdd.init_inputs 8 A0 B0).1 = [0, 1, 2, 3, 4, 5, 6, 7] ∧
    (List.range 8).map (VecAdd.init_inputs 8 A0 B0).2 = [8, 7, 6, 5, 4, 3, 2, 1] ∧
    (List.range 8).map (fun i => add32 ((VecAdd.init_inputs 8 A0 B0).1 i)
      ((VecAdd.init_inputs 8 A0 B0).2 i)) = [8, 8, 8, 8, 8, 8, 8, 8] ∧
    (VecAdd.validate v 8 (VecAdd.init_inputs 8 A0 B0).1 (VecAdd.init_inputs 8 A0 B0).2
      (fun _ => 8)).errors = 0 ∧
    (VecAdd.validate v 8 (VecAdd.init_inputs 8 A0 B0).1 (VecAdd.init_inputs 8 A0 B0).2
      (fun _ => 8)).status = 0 := by
  have hall : ∀ (m : Nat), m ≤ 2147483647 → ∀ i < m,
      (VecAdd.init_inputs m A0 B0).1 i = i ∧
      (VecAdd.init_inputs m A0 B0).2 i = (m : Int) - i ∧
      (VecAdd.init_inputs m A0 B0).1 i + (VecAdd.init_inputs m A0 B0).2 i = m ∧
      add32 ((VecAdd.init_inputs m A0 B0).1 i) ((VecAdd.init_inputs m A0 B0).2 i) = m := by
    intro m hm i hi
    obtain ⟨h₁, h₂⟩ := VecAdd.va_init_inputs_spec m hm A0 B0 i hi
    have hs : (VecAdd.init_inputs m A0 B0).1 i + (VecAdd.init_inputs m A0 B0).2 i = m := by
      rw [h₁, h₂]; omega
    exact ⟨h₁, h₂, hs, by rw [VecAdd.va_init_inputs_sum m hm A0 B0 i hi, hs]⟩
  have h8 := hall 8 (by decide)
  have e8 : List.range 8 = [0, 1, 2, 3, 4, 5, 6, 7] := by decide
  have hv8 := VecAdd.va_validate_all_equal v 8 (VecAdd.init_inputs 8 A0 B0).1
    (VecAdd.init_inputs 8 A0 B0).2 (fun _ => 8)
    (fun i hi => by rw [(h8 i hi).2.2.2]; rfl)
  refine ⟨hall n hn, ?_, ?_, ?_, ?_, hv8.1, hv8.2.1⟩
  · intro hC
    have hCa : ∀ i < n, C i = add32 ((VecAdd.init_inputs n A0 B0).1 i)
        ((VecAdd.init_inputs n A0 B0).2 i) := by
      intro i hi
      rw [hC i hi, (hall n hn i hi).2.2.2]
    refine ⟨?_, VecAdd.va_validate_all_equal v n _ _ C hCa⟩
    rw [mismatches_eq_zero_iff]
    intro i hi
    rw [hC i hi, (hall n hn i hi).2.2.1]
  · rw [e8]
    simp only [List.map_cons, List.map_nil]
    rw [(h8 0 (by decide)).1, (h8 1 (by decide)).1, (h8 2 (by decide)).1,
      (h8 3 (by decide)).1, (h8 4 (by decide)).1, (h8 5 (by decide)).1,
      (h8 6 (by decide)).1, (h8 7 (by decide)).1]
    rfl
  · rw [e8]
    simp only [List.map_cons, List.map_nil]
    rw [(h8 0 (by decide)).2.1, (h8 1 (by decide)).2.1, (h8 2 (by decide)).2.1,
      (h8 3 (by decide)).2.1, (h8 4 (by decide)).2.1, (h8 5 (by decide)).2.1,
      (h8 6 (by decide)).2.1, (h8 7 (by decide)).2.1]
    rfl
  · rw [e8]
    simp only [List.map_cons, List.map_nil]
    rw [(h8 0 (by decide)).2.2.2, (h8 1 (by decide)).2.2.2, (h8 2 (by decide)).2.2.2,
      (h8 3 (by decide)).2.2.2, (h8 4 (by decide)).2.2.2, (h8 5 (by decide)).2.2.2,
      (h8 6 (by decide)).2.2.2, (h8 7 (by decide)).2.2.2]
    rfl

/-- C13 at `n = 8` with zeroed buffers before the initialisation: the whole
verdict of the quiet run is status 0, no error, index 8 and the single line
`Added correctly!`. -/
theorem C13_vec_add_inputs_sum_to_length_witness :
    8 ≤ 2147483647 ∧
    (∀ i < 8, (fun _ => (8 : Int)) i = ((8 : Nat) : Int)) ∧
    (VecAdd.validate 0 8 (VecAdd.init_inputs 8 (fun _ => 0) (fun _ => 0)).1
      (VecAdd.init_inputs 8 (fun _ => 0) (fun _ => 0)).2 (fun _ => 8)).errors = 0 ∧
    VecAdd.validate 0 8 (VecAdd.init_inputs 8 (fun _ => 0) (fun _ => 0)).1
      (VecAdd.init_inputs 8 (fun _ => 0) (fun _ => 0)).2 (fun _ => 8) =
      ⟨EXIT_SUCCESS, 0, 8, [.added_correctly]⟩ :=
  ⟨by decide, fun _ _ => rfl,
   ((C13_vec_add_inputs_sum_to_length 0 8 (by decide) (fun _ => 0) (fun _ => 0)
      (fun _ => 8)).2.1 (fun _ _ => rfl)).2.1,
   by decide⟩

/-! ## The built-in inputs of `matrix_mult` -/

/-- The initialisation of `A` stores the `cl_int` sum `i + j` at
`A[i * m + j]`. -/
theorem MatrixMult.mm_init_A_spec (n m : Nat) (A : Buffer) (i j : Nat)
    (hi : i < n) (hj : j < m) :
    MatrixMult.init_A n m A (i * m + j) = add32 i j := by
  unfold MatrixMult.init_A
  apply foldl_foldl_store_eq (List.range n) (List.range m) (fun x y => x * m + y)
    (fun x y => add32 x y)
  · intro x _ y hy h
    obtain ⟨rfl, rfl⟩ := pair_index_inj m x y i j (List.mem_range.1 hy) hj h
    rfl
  · exact Or.inr ⟨i, List.mem_range.2 hi, j, List.mem_range.2 hj, rfl⟩

theorem MatrixMult.mm_reference_wrap_exact (n m k : Nat) (A B Bt C : Buffer)
    (hT : ∀ i < m, ∀ j < k, Bt (j * m + i) = B (i * k + j))
    (i j : Nat) (hi : i < n) (hj : j < k) :
    MatrixMult.reference n m k A Bt C (i * k + j) = wrap32 (exact_entry m k A B i j) := by
  rw [MatrixMult.mm_reference_entry n m k A Bt C i j hi hj, exact_entry]
  congr 2
  apply List.map_congr_left
  intro l hl
  rw [hT l (List.mem_range.1 hl) j hj]

theorem sum_squares (n : Nat) :
    6 * ((List.range n).map (fun l : Nat => (l : Int) * l)).sum =
      (n : Int) * (n - 1) * (2 * n - 1) := by
  induction n with
  | zero => simp
  | succ n ih =>
    rw [List.range_succ, List.map_append, List.sum_append]
    simp only [List.map_cons, List.map_nil, List.sum_cons, List.sum_nil, add_zero]
    push_cast
    linear_combination ih

/-- With the built-in inputs, entry `(0, 1)` of the exact product of two
`m x m` matrices, `m ≤ 2024`, is the sum of the squares below `m`. -/
theorem builtin_entry_0_1 (m : Nat) (hm1 : 1 < m) (hm : m ≤ 2024) (A0 B0 Bt0 : Buffer) :
    exact_entry m m (MatrixMult.init_A m m A0) (MatrixMult.init_B m m B0 Bt0).1 0 1 =
      ((List.range m).map (fun l : Nat => (l : Int) * l)).sum := by
  unfold exact_entry
  congr 1
  apply List.map_congr_left
  intro l hl
  have hl' : l < m := List.mem_range.1 hl
  rw [MatrixMult.mm_init_A_spec m m A0 0 l (by omega) hl',
    (MatrixMult.mm_init_B_spec m m B0 Bt0 l 1 hl' hm1).1]
  have h1 : add32 ((0 : Nat) : Int) (l : Int) = l := by
    unfold add32 wrap32; push_cast; omega
  have h2 : mul32 (l : Int) ((1 : Nat) : Int) = l := by
    unfold mul32 wrap32; push_cast; omega
  have h3 : add32 (m : Int) (m : Int) = 2 * m := by
    unfold add32 wrap32; omega
  have h4 : mul32 (3 : Int) (2 * (m : Int)) = 6 * m := by
    unfold mul32 wrap32; omega
  rw [h1, h2, h3, h4, Int.tmod_eq_of_lt (by omega) (by omega)]

theorem sum_squares_2024 :
    ((List.range 2024).map (fun l : Nat => (l : Int) * l)).sum = 2761775324 := by
  have h := sum_squares 2024
  norm_num at h
  omega

/-- C15: with the built-in dimensions `N = M = K = 2024` and the built-in
inputs, entry `(0, 1)` of the product over the integers is the sum of `l * l`
for `l < 2024`, that is 2761775324, which is above `2^31 - 1`; the value the
host reference stores there is its 32-bit wraparound, -1533191972, and so
differs from the entry of the mathematical product. -/
theorem C15_builtin_reference_overflows (A0 B0 Bt0 C0 : Buffer) :
    0 < MatrixMult.N ∧ 1 < MatrixMult.K ∧
    exact_entry MatrixMult.M MatrixMult.K (MatrixMult.init_A MatrixMult.N MatrixMult.M A0)
        (MatrixMult.init_B MatrixMult.M MatrixMult.K B0 Bt0).1 0 1 =
      ((List.range 2024).map (fun l : Nat => (l : Int) * l)).sum ∧
    exact_entry MatrixMult.M MatrixMult.K (MatrixMult.init_A MatrixMult.N MatrixMult.M A0)
        (MatrixMult.init_B MatrixMult.M MatrixMult.K B0 Bt0).1 0 1 = 2761775324 ∧
    (2 : Int) ^ 31 - 1 <
      exact_entry MatrixMult.M MatrixMult.K (MatrixMult.init_A MatrixMult.N MatrixMult.M A0)
        (MatrixMult.init_B MatrixMult.M MatrixMult.K B0 Bt0).1 0 1 ∧
    MatrixMult.reference MatrixMult.N MatrixMult.M MatrixMult.K
        (MatrixMult.init_A MatrixMult.N MatrixMult.M A0)
        (MatrixMult.init_B MatrixMult.M MatrixMult.K B0 Bt0).2 C0 (0 * MatrixMult.K + 1) =
      -1533191972 ∧
    MatrixMult.reference MatrixMult.N MatrixMult.M MatrixMult.K
        (MatrixMult.init_A MatrixMult.N MatrixMult.M A0)
        (MatrixMult.init_B MatrixMult.M MatrixMult.K B0 Bt0).2 C0 (0 * MatrixMult.K + 1) ≠
      exact_entry MatrixMult.M MatrixMult.K (MatrixMult.init_A MatrixMult.N MatrixMult.M A0)
        (MatrixMult.init_B MatrixMult.M MatrixMult.K B0 Bt0).1 0 1 := by
  have hex : exact_entry MatrixMult.M MatrixMult.K
      (MatrixMult.init_A MatrixMult.N MatrixMult.M A0)
      (MatrixMult.init_B MatrixMult.M MatrixMult.K B0 Bt0).1 0 1 =
      ((List.range 2024).map (fun l : Nat => (l : Int) * l)).sum :=
    builtin_entry_0_1 2024 (by decide) (by decide) A0 B0 Bt0
  have hval := hex.trans sum_squares_2024
  have href : MatrixMult.reference MatrixMult.N MatrixMult.M MatrixMult.K
      (MatrixMult.init_A MatrixMult.N MatrixMult.M A0)
      (MatrixMult.init_B MatrixMult.M MatrixMult.K B0 Bt0).2 C0 (0 * MatrixMult.K + 1) =
      -1533191972 := by
    rw [MatrixMult.mm_reference_wrap_exact MatrixMult.N MatrixMult.M MatrixMult.K _
      (MatrixMult.init_B MatrixMult.M MatrixMult.K B0 Bt0).1 _ C0
      (MatrixMult.mm_init_B_transposed MatrixMult.M MatrixMult.K B0 Bt0) 0 1
      (by decide) (by decide), hval]
    decide
  refine ⟨by decide, by decide, hex, hval, ?_, href, ?_⟩
  · rw [hval]; norm_num
  · rw [href, hval]; decide

/-! ## The capped validation of `matrix_mult` -/

theorem mm_fold_errors (v : Int) (k : Nat) (C R : Buffer) (l : List Nat) :
    ∀ s : check_t, (l.foldl (MatrixMult.check_step v k C R) s).errors =
      s.errors + (l.filter (fun i => decide (C i ≠ R i))).length := by
  induction l with
  | nil => intro s; rfl
  | cons j l ih =>
    intro s
    rw [List.foldl_cons, ih, MatrixMult.mm_check_step_errors, filter_ne_length_cons]
    omega

theorem mm_check_loop_append (v : Int) (k : Nat) (C R : Buffer) (l₁ l₂ : List Nat) :
    ∀ s : check_t, s.errors + (l₁.filter (fun i => decide (C i ≠ R i))).length ≤ 20 →
      MatrixMult.check_loop v k C R (l₁ ++ l₂) s =
        MatrixMult.check_loop v k C R l₂ (l₁.foldl (MatrixMult.check_step v k C R) s) := by
  induction l₁ with
  | nil => intro s _; rfl
  | cons j l ih =>
    intro s h
    rw [filter_ne_length_cons] at h
    have hs := MatrixMult.mm_check_step_errors v k C R s j
    have h20 : ¬ ((MatrixMult.check_step v k C R s j).errors > 20) := by omega
    rw [List.cons_append, MatrixMult.check_loop]
    simp only [h20, if_false, List.foldl_cons]
    exact ih _ (by omega)

theorem mismatches_succ (len : Nat) (C R : Buffer) :
    mismatches (len + 1) C R = mismatches len C R + if C len ≠ R len then 1 else 0 := by
  unfold mismatches
  rw [List.range_succ, List.filter_append, List.length_append]
  by_cases h : C len = R len <;> simp [List.filter_cons, h]

theorem mismatches_mono (len : Nat) (C R : Buffer) :
    mismatches len C R ≤ mismatches (len + 1) C R := by
  rw [mismatches_succ]; omega

/-- Among at least 21 differing indices there is a 21st: an index that
differs and has exactly 20 differing indices before it. -/
theorem exists_21st_mismatch (C R : Buffer) :
    ∀ len, 21 ≤ mismatches len C R →
      ∃ i, i < len ∧ C i ≠ R i ∧ mismatches i C R = 20 := by
  intro len
  induction len with
  | zero => intro h; simp [mismatches] at h
  | succ len ih =>
    intro h
    by_cases h21 : 21 ≤ mismatches len C R
    · obtain ⟨i, hi, hne, h20⟩ := ih h21
      exact ⟨i, by omega, hne, h20⟩
    · rw [mismatches_succ] at h
      by_cases hc : C len ≠ R len
      · rw [if_pos hc] at h
        exact ⟨len, by omega, hc, by omega⟩
      · rw [if_neg hc] at h
        omega

theorem range_split (i len : Nat) (h : i < len) :
    List.range len = List.range i ++ i :: List.range' (i + 1) (len - (i + 1)) := by
  have e : len = (len - (i + 1) + 1) + i := by omega
  have h1 := List.range'_append_1 0 i (len - (i + 1) + 1)
  rw [← e, Nat.zero_add, List.range'_succ] at h1
  rw [List.range_eq_range', List.range_eq_range', ← h1]

/-- The lines the comparison step prints are `incorrect` or `element_correct`
lines. -/
theorem mm_fold_printed (v : Int) (k : Nat) (C R : Buffer) (l : List Nat) :
    ∀ (s : check_t) (line : Line),
      line ∈ (l.foldl (MatrixMult.check_step v k C R) s).printed →
      line ∈ s.printed ∨ (∃ a b c d, line = .incorrect a b c d) ∨
        (∃ a b, line = .element_correct a b) := by
  induction l with
  | nil => intro s line h; exact Or.inl h
  | cons j l ih =>
    intro s line h
    rw [List.foldl_cons] at h
    rcases ih _ line h with h | h | h
    · unfold MatrixMult.check_step at h
      split_ifs at h
      · rcases List.mem_append.1 h with h | h
        · exact Or.inl h
        · exact Or.inr (Or.inl ⟨_, _, _, _, List.mem_singleton.1 h⟩)
      · rcases List.mem_append.1 h with h | h
        · exact Or.inl h
        · exact Or.inr (Or.inr ⟨_, _, List.mem_singleton.1 h⟩)
      · exact Or.inl h
    · exact Or.inr (Or.inl h)
    · exact Or.inr (Or.inr h)

theorem mm_fold_congr (v : Int) (k : Nat) (C R C' R' : Buffer) (l : List Nat)
    (h : ∀ j ∈ l, C' j = C j ∧ R' j = R j) :
    ∀ s : check_t, l.foldl (MatrixMult.check_step v k C' R') s =
      l.foldl (MatrixMult.check_step v k C R) s := by
  induction l with
  | nil => intro s; rfl
  | cons j l ih =>
    intro s
    obtain ⟨hc, hr⟩ := h j (List.mem_cons_self _ _)
    rw [List.foldl_cons, List.foldl_cons, ih (fun x hx => h x (List.mem_cons_of_mem _ hx))]
    congr 1
    unfold MatrixMult.check_step
    rw [hc, hr]

/-- The verdict when the 21st differing index is `i`. -/
theorem mm_validate_exit_at (v : Int) (n k : Nat) (C R : Buffer) (i : Nat)
    (hi : i < n * k) (hne : C i ≠ R i) (h20 : mismatches i C R = 20) :
    MatrixMult.validate v n k C R =
      ⟨EXIT_FAILURE, 21, i,
        ((List.range i).foldl (MatrixMult.check_step v k C R)
            ⟨0, if v ≠ 0 then [.checking] else []⟩).printed ++
          [.incorrect (i / k) (i % k) (C i) (R i), .too_many_errors]⟩ := by
  have hcnt : ((List.range i).filter (fun j => decide (C j ≠ R j))).length = 20 := h20
  have herr : ((List.range i).foldl (MatrixMult.check_step v k C R)
      ⟨0, if v ≠ 0 then [.checking] else []⟩).errors = 20 := by
    rw [mm_fold_errors, hcnt]
  have hstep : ∀ s : check_t, s.errors = 20 →
      MatrixMult.check_step v k C R s i =
        ⟨21, s.printed ++ [.incorrect (i / k) (i % k) (C i) (R i)]⟩ := by
    intro s hs
    unfold MatrixMult.check_step
    rw [if_pos hne, hs]
  unfold MatrixMult.validate
  simp only
  rw [range_split i (n * k) hi, mm_check_loop_append v k C R _ _ _ (by rw [hcnt]),
    MatrixMult.check_loop, hstep _ herr]
  simp

theorem mismatches_congr_both (len : Nat) (C R C' R' : Buffer)
    (h : ∀ j < len, C' j = C j ∧ R' j = R j) :
    mismatches len C' R' = mismatches len C R := by
  unfold mismatches
  congr 1
  apply List.filter_congr
  intro j hj
  obtain ⟨hc, hr⟩ := h j (List.mem_range.1 hj)
  rw [hc, hr]

theorem mm_exit_printed (v : Int) (k : Nat) (C R : Buffer) (i : Nat) (line : Line)
    (h : line ∈ ((List.range i).foldl (MatrixMult.check_step v k C R)
        ⟨0, if v ≠ 0 then [.checking] else []⟩).printed ++
      [.incorrect (i / k) (i % k) (C i) (R i), .too_many_errors]) :
    line = .checking ∨ line = .too_many_errors ∨ (∃ a b c d, line = .incorrect a b c d) ∨
      (∃ a b, line = .element_correct a b) := by
  rcases List.mem_append.1 h with h | h
  · rcases mm_fold_printed v k C R _ _ line h with h | h | h
    · simp only at h
      split_ifs at h
      · exact Or.inl (List.mem_singleton.1 h)
      · simp at h
    · exact Or.inr (Or.inr (Or.inl h))
    · exact Or.inr (Or.inr (Or.inr h))
  · simp only [List.mem_cons, List.mem_singleton, List.not_mem_nil, or_false] at h
    rcases h with h | h
    · exact Or.inr (Or.inr (Or.inl ⟨_, _, _, _, h⟩))
    · exact Or.inr (Or.inl h)

/-- C14: in `matrix_mult`, when at least 21 indices of `C` and `C_CPU` differ
the validator calls `exit(EXIT_FAILURE)` at the 21st differing index `i` (it
differs and exactly 20 indices before it do): the loop variable is `i`, the
counter is 21, the last line is `Too many errors...`, no count and no success
line is printed, and the verdict does not depend on what the buffers hold
after `i`.  When at most 20 indices differ the loop reaches `n * k` and the
counter is the exact number of differing indices. -/
theorem C14_validator_stops_at_21st_mismatch (v : Int) (n k : Nat) (C C_CPU : Buffer) :
    (21 ≤ mismatches (n * k) C C_CPU →
      ∃ i, i < n * k ∧ C i ≠ C_CPU i ∧ mismatches i C C_CPU = 20 ∧
        (MatrixMult.validate v n k C C_CPU).index = i ∧
        (MatrixMult.validate v n k C C_CPU).status = EXIT_FAILURE ∧
        (MatrixMult.validate v n k C C_CPU).errors = 21 ∧
        (MatrixMult.validate v n k C C_CPU).printed.getLast? = some .too_many_errors ∧
        (∀ m, Line.errors_found m ∉ (MatrixMult.validate v n k C C_CPU).printed) ∧
        Line.added_correctly ∉ (MatrixMult.validate v n k C C_CPU).printed ∧
        (∀ C' R' : Buffer, (∀ j ≤ i, C' j = C j ∧ R' j = C_CPU j) →
          MatrixMult.validate v n k C' R' = MatrixMult.validate v n k C C_CPU)) ∧
    (mismatches (n * k) C C_CPU ≤ 20 →
      (MatrixMult.validate v n k C C_CPU).index = n * k ∧
      (MatrixMult.validate v n k C C_CPU).errors = mismatches (n * k) C C_CPU) := by
  constructor
  · intro h
    obtain ⟨i, hi, hne, h20⟩ := exists_21st_mismatch C C_CPU (n * k) h
    have hval := mm_validate_exit_at v n k C C_CPU i hi hne h20
    refine ⟨i, hi, hne, h20, ?_, ?_, ?_, ?_, ?_, ?_, ?_⟩
    · rw [hval]
    · rw [hval]
    · rw [hval]
    · rw [hval]; simp
    · intro m hm
      rw [hval] at hm
      rcases mm_exit_printed v k C C_CPU i _ hm with h | h | ⟨_, _, _, _, h⟩ | ⟨_, _, h⟩ <;>
        cases h
    · intro hm
      rw [hval] at hm
      rcases mm_exit_printed v k C C_CPU i _ hm with h | h | ⟨_, _, _, _, h⟩ | ⟨_, _, h⟩ <;>
        cases h
    · intro C' R' hagree
      obtain ⟨hci, hri⟩ := hagree i (Nat.le_refl i)
      have hne' : C' i ≠ R' i := by rw [hci, hri]; exact hne
      have h20' : mismatches i C' R' = 20 := by
        rw [mismatches_congr_both i C C_CPU C' R' (fun j hj => hagree j (Nat.le_of_lt hj)), h20]
      rw [hval, mm_validate_exit_at v n k C' R' i hi hne' h20',
        mm_fold_congr v k C C_CPU C' R' (List.range i)
          (fun j hj => hagree j (Nat.le_of_lt (List.mem_range.1 hj))),
        hci, hri]
  · intro h
    obtain ⟨h₁, h₂, _, _⟩ := MatrixMult.mm_validate_below_cap v n k C C_CPU h
    exact ⟨h₂, h₁⟩

/-- C14 on a 2 x 15 output that differs from the reference at every index
(30 differing indices): the process ends at index 20, and changing the
buffers after index 20 changes nothing. -/
theorem C14_validator_stops_at_21st_mismatch_witness :
    21 ≤ mismatches (2 * 15) (fun _ => 1) (fun _ => 0) ∧
    (∃ i, i < 2 * 15 ∧ (fun _ => (1 : Int)) i ≠ (fun _ => (0 : Int)) i ∧
        mismatches i (fun _ => 1) (fun _ => 0) = 20 ∧
        (MatrixMult.validate 0 2 15 (fun _ => 1) (fun _ => 0)).index = i ∧
        (MatrixMult.validate 0 2 15 (fun _ => 1) (fun _ => 0)).status = EXIT_FAILURE ∧
        (MatrixMult.validate 0 2 15 (fun _ => 1) (fun _ => 0)).errors = 21 ∧
        (MatrixMult.validate 0 2 15 (fun _ => 1) (fun _ => 0)).printed.getLast? =
          some .too_many_errors ∧
        (∀ m, Line.errors_found m ∉
          (MatrixMult.validate 0 2 15 (fun _ => 1) (fun _ => 0)).printed) ∧
        Line.added_correctly ∉
          (MatrixMult.validate 0 2 15 (fun _ => 1) (fun _ => 0)).printed ∧
        (∀ C' R' : Buffer, (∀ j ≤ i, C' j = (fun _ => (1 : Int)) j ∧
            R' j = (fun _ => (0 : Int)) j) →
          MatrixMult.validate 0 2 15 C' R' =
            MatrixMult.validate 0 2 15 (fun _ => 1) (fun _ => 0))) ∧
    (MatrixMult.validate 0 2 15 (fun _ => 1) (fun _ => 0)).index = 20 ∧
    (MatrixMult.validate 0 2 15 (fun i => if i ≤ 20 then 1 else 0) (fun _ => 0)).index = 20 :=
  ⟨by decide,
   (C14_validator_stops_at_21st_mismatch 0 2 15 (fun _ => 1) (fun _ => 0)).1 (by decide),
   by decide, by decide⟩

end OCL
